import Mathlib

/-! Value: the dynamically typed scalar cell of `src/observer/sql/parser/value.cpp`.

A `Value` carries a type tag (`attr_type_`), a stored length (`length_`), a
four byte union cell (`num_value_`, overlaying `int_value_`, `float_value_`,
`bool_value_` and `date_value_`) and an owned text (`str_value_`).

Conventions of the embedding:

* bytes are natural numbers below 256, a text is a list of bytes, and a
  `const char *` argument is the list of bytes found at the pointer (a C string
  ends at its first zero byte);
* the union cell is the natural number below `2 ^ 32` whose little-endian bytes
  are the cell's bytes; `int_value_` is its two's complement reading,
  `float_value_` its reading as an IEEE-754 binary32 bit pattern and
  `bool_value_` its lowest-addressed byte;
* `int` is 32 bits wide, `sizeof(int) = sizeof(float) = 4`, `sizeof(bool) = 1`;
* floating point arithmetic and the helpers of `common/lang` that work on floats
  are not interpreted: they are the fields of `FloatOps`, a parameter of every
  function that reaches them.
-/

namespace Miniob

/-- The type tag `AttrType`, in the order of the `ATTR_TYPE_NAME` table. -/
inductive AttrType where
  | UNDEFINED
  | CHARS
  | INTS
  | FLOATS
  | BOOLEANS
  | DATES
  deriving DecidableEq, Repr

open AttrType

/-! ## Machine integers and raw bytes -/

/-- The 32-bit cell holding a signed integer (two's complement). -/
def to_cell (i : Int) : Nat := (i % 4294967296).toNat

/-- The signed 32-bit integer held by a cell: `*(int *)&cell`. -/
def to_int32 (c : Nat) : Int :=
  if c % 4294967296 < 2147483648 then ((c % 4294967296 : Nat) : Int)
  else ((c % 4294967296 : Nat) : Int) - 4294967296

/-- Conversion of an integer of any width to `int`: reduction modulo `2 ^ 32`. -/
def int_cast (i : Int) : Int := to_int32 (to_cell i)

/-- The `sizeof` of the four byte scalars `int` and `float`. -/
def sizeof_int : Int := 4

/-- The `sizeof` of `bool`. -/
def sizeof_bool : Int := 1

/-- The four bytes of a cell, lowest address first. -/
def cell_bytes (c : Nat) : List Nat :=
  [c % 256, c / 256 % 256, c / 65536 % 256, c / 16777216 % 256]

/-- The cell read through `*(int *)data` (or `*(float *)data`): the first four
bytes at the pointer. A byte the list does not have reads as zero; the C++ read
is undefined there. -/
def load32 (data : List Nat) : Nat :=
  data.getD 0 0 % 256 + 256 * (data.getD 1 0 % 256) + 65536 * (data.getD 2 0 % 256)
    + 16777216 * (data.getD 3 0 % 256)

/-- The cell after `num_value_.bool_value_ = b`: only the first byte is written,
the other three bytes keep what they held. -/
def store_bool (c : Nat) (b : Bool) : Nat := c - c % 256 + (if b then 1 else 0)

/-- The member `num_value_.bool_value_` read from the cell: its first byte. -/
def load_bool (c : Nat) : Bool := c % 256 != 0

/-- The C function `strlen`: the number of bytes before the first zero byte. -/
def strlen (s : List Nat) : Nat := (s.takeWhile (fun b => b != 0)).length

/-- The C function `strnlen`: as `strlen`, looking at no more than `n` bytes. -/
def strnlen (s : List Nat) (n : Nat) : Nat := ((s.take n).takeWhile (fun b => b != 0)).length

/-- The text built by `std::string::assign(s)`: the bytes before the first zero byte. -/
def assign_cstr (s : List Nat) : List Nat := s.takeWhile (fun b => b != 0)

/-- The text built by `std::string::assign(s, n)`: the first `n` bytes. -/
def assign_n (s : List Nat) (n : Nat) : List Nat := s.take n

/-- The pointer `std::string::c_str()`: the text followed by its terminator. -/
def c_str (s : List Nat) : List Nat := s ++ [0]

/-- The value `size() - 1` computed in `size_t` (64 bits): it wraps for the empty text. -/
def size_minus_one (s : List Nat) : Nat := (s.length + 18446744073709551616 - 1) % 18446744073709551616

/-- The text `s.substr(pos, n)` of `std::string` for `pos <= size()`: at most `n`
bytes from `pos` on. Every call in value.cpp has `pos = 0`, so the
`out_of_range` exception of a larger `pos` is not reachable. -/
def substr (s : List Nat) (pos n : Nat) : List Nat := (s.drop pos).take n

/-! ## Floating point parameter -/

/-- The floating point operations value.cpp relies on. A `float` is represented
by its binary32 bit pattern, which is what the union cell holds.

* `int_to_float i` is the conversion `(float)i` of an `int`;
* `float_to_int f` is the conversion `(int)f`;
* `atof s` is `(float)atof(s.c_str())` for a text `s`;
* `stof s` is `std::stof(s)`, `none` when it throws;
* `compare_float a b` is `common::compare_float`;
* `ge_epsilon f` is the test `f >= EPSILON || f <= -EPSILON`;
* `double_to_str f` is `common::double_to_str(f)`. -/
structure FloatOps where
  int_to_float : Int → Nat
  float_to_int : Nat → Int
  atof : List Nat → Nat
  stof : List Nat → Option Nat
  compare_float : Nat → Nat → Int
  ge_epsilon : Nat → Bool
  double_to_str : Nat → List Nat

/-! ## The Value cell -/

/-- The state of a `Value` object. -/
structure Value where
  attr_type_ : AttrType
  length_ : Int
  num_value_ : Nat
  str_value_ : List Nat
  deriving DecidableEq, Repr

namespace Value

/-- Modelled from the spec: the default constructor of value.h, which is not
among the sources. "A Value begins in the Undefined kind (no payload) when
default-constructed"; the union cell is not initialised, so its content `junk`
is whatever the memory held. -/
def fresh (junk : Nat) : Value :=
  { attr_type_ := UNDEFINED, length_ := 0, num_value_ := junk % 4294967296, str_value_ := [] }

/-- The member `num_value_.int_value_` (and `date_value_`, which overlays it). -/
def int_value_ (v : Value) : Int := to_int32 v.num_value_

/-- The member `num_value_.float_value_`, as a bit pattern. -/
def float_value_ (v : Value) : Nat := v.num_value_ % 4294967296

/-- The member `num_value_.bool_value_`. -/
def bool_value_ (v : Value) : Bool := load_bool v.num_value_

/-- The method `Value::set_int`. -/
def set_int (v : Value) (val : Int) : Value :=
  { v with attr_type_ := INTS, num_value_ := to_cell val, length_ := sizeof_int }

/-- The method `Value::set_float`; `val` is the bit pattern of the float. -/
def set_float (v : Value) (val : Nat) : Value :=
  { v with attr_type_ := FLOATS, num_value_ := val % 4294967296, length_ := sizeof_int }

/-- The method `Value::set_boolean`: writes the one byte of `bool_value_` and
stores `sizeof(val)` of a `bool`. -/
def set_boolean (v : Value) (val : Bool) : Value :=
  { v with attr_type_ := BOOLEANS, num_value_ := store_bool v.num_value_ val,
           length_ := sizeof_bool }

/-- The method `Value::set_string`; `length_` receives `str_value_.length()`
converted to `int`. -/
def set_string (v : Value) (s : List Nat) (len : Int) : Value :=
  let str := if len > 0 then assign_n s (strnlen s len.toNat) else assign_cstr s
  { v with attr_type_ := CHARS, str_value_ := str, length_ := int_cast str.length }

/-- The method `Value::set_date(int y, int m, int d)`; the sum is computed in `int`. -/
def set_date_ymd (v : Value) (y m d : Int) : Value :=
  { v with attr_type_ := DATES, num_value_ := to_cell (y * 10000 + m * 100 + d),
           length_ := sizeof_int }

/-- The method `Value::set_date(int val)`. -/
def set_date (v : Value) (val : Int) : Value :=
  { v with attr_type_ := DATES, num_value_ := to_cell val, length_ := sizeof_int }

/-- The method `Value::set_data`. -/
def set_data (v : Value) (data : List Nat) (length : Int) : Value :=
  match v.attr_type_ with
  | CHARS => set_string v data length
  | INTS => { v with num_value_ := load32 data, length_ := length }
  | FLOATS => { v with num_value_ := load32 data, length_ := length }
  | BOOLEANS =>
      { v with num_value_ := store_bool v.num_value_ (to_int32 (load32 data) != 0),
               length_ := length }
  | DATES => { v with num_value_ := load32 data, length_ := length }
  | UNDEFINED => v

/-- The method `Value::data`: the bytes at the returned pointer. -/
def data (v : Value) : List Nat :=
  match v.attr_type_ with
  | CHARS => c_str v.str_value_
  | _ => cell_bytes v.num_value_

/-- The accessor `Value::length` of value.h: the stored `length_`. -/
def length (v : Value) : Int := v.length_

/-- The constructor `Value(int val)`. -/
def of_int (junk : Nat) (val : Int) : Value := set_int (fresh junk) val

/-- The constructor `Value(float val)`. -/
def of_float (junk : Nat) (val : Nat) : Value := set_float (fresh junk) val

/-- The constructor `Value(bool val)`. -/
def of_bool (junk : Nat) (val : Bool) : Value := set_boolean (fresh junk) val

/-- The constructor `Value(const char *s, int len = 0)`. -/
def of_string (junk : Nat) (s : List Nat) (len : Int) : Value := set_string (fresh junk) s len

/-- The constructor `Value(int y, int m, int d)`. -/
def of_date (junk : Nat) (y m d : Int) : Value := set_date_ymd (fresh junk) y m d

end Value

/-! ## Text rendering and parsing helpers of the C and C++ libraries -/

/-- The decimal digits (ASCII) of a natural number, most significant first;
`fuel` bounds the number of digits. -/
def dec_digits : Nat → Nat → List Nat
  | 0, _ => []
  | fuel + 1, n => if n < 10 then [48 + n] else dec_digits fuel (n / 10) ++ [48 + n % 10]

/-- The text `printf` writes for the conversion `%0<width>d` of an `int`, and
with `width = 0` the text `operator<<` writes for an `int`: a minus sign for a
negative number, then zeros up to the width, then the digits (an `int` has at
most ten). -/
def printf_d (width : Nat) (i : Int) : List Nat :=
  let ds := dec_digits 10 i.natAbs
  if i < 0 then 45 :: (List.replicate (width - 1 - ds.length) 48 ++ ds)
  else List.replicate (width - ds.length) 48 ++ ds

/-- The text left in a buffer of `size` bytes by `snprintf`: `size - 1` bytes at most. -/
def snprintf (size : Nat) (out : List Nat) : List Nat := out.take (size - 1)

/-- The C function `isspace` in the "C" locale. -/
def isspace (b : Nat) : Bool := b == 32 || (9 ≤ b && b ≤ 13)

/-- The C function `isdigit`. -/
def isdigit (b : Nat) : Bool := 48 ≤ b && b ≤ 57

/-- The number written by a run of decimal digits. -/
def digits_value (ds : List Nat) : Nat := ds.foldl (fun acc b => acc * 10 + (b - 48)) 0

/-- The optional sign of a number text: whether it is negative, and the rest. -/
def take_sign (t : List Nat) : Bool × List Nat :=
  match t with
  | 45 :: r => (true, r)
  | 43 :: r => (false, r)
  | _ => (false, t)

/-- The library function `std::stol(s)` in base 10 with a 64-bit `long`: white
space is skipped, an optional sign and the longest run of digits are read.
The result is `none` when it throws: `invalid_argument` when there is no digit,
`out_of_range` when the number does not fit a `long`. -/
def stol (s : List Nat) : Option Int :=
  let t := take_sign (s.dropWhile isspace)
  let ds := t.2.takeWhile isdigit
  if ds = [] then none
  else
    let n : Int := if t.1 then -((digits_value ds : Nat) : Int) else ((digits_value ds : Nat) : Int)
    if n < -9223372036854775808 ∨ 9223372036854775807 < n then none else some n

/-- Modelled from the spec: the macro `ASSERT` of common/log/log.h, which is not
among the sources. A failed assertion "fails fatally (invariant violation, not a
recoverable error)": it aborts, which is `none`; a true one lets the caller go on. -/
def ASSERT (expression : Bool) : Option Unit := if expression then some () else none

/-! ## Comparators of `common/lang/comparator.h` -/

/-- Modelled from the spec: `common::compare_int`, whose code is not among the
sources. "Int/Date compare as signed integers", with the outcome one of Less,
Equal, Greater: `-1`, `0` or `1`. -/
def compare_int (v1 v2 : Int) : Int :=
  if v1 < v2 then -1 else if v1 = v2 then 0 else 1

/-- Byte-lexicographic order of two texts: the first differing byte decides, and
a text that is a proper start of the other one is the smaller. -/
def lex_compare : List Nat → List Nat → Int
  | [], [] => 0
  | [], _ :: _ => -1
  | _ :: _, [] => 1
  | a :: s, b :: t => if a < b then -1 else if b < a then 1 else lex_compare s t

/-- Modelled from the spec: `common::compare_string`, whose code is not among
the sources. "Text compares as a length-aware byte-lexicographic order
(shorter-prefix-is-less when one is a prefix of the other, otherwise first
differing byte wins)"; the arguments are the two pointers and the two `int`
lengths. -/
def compare_string (arg1 : List Nat) (arg1_max_length : Int) (arg2 : List Nat)
    (arg2_max_length : Int) : Int :=
  lex_compare (arg1.take arg1_max_length.toNat) (arg2.take arg2_max_length.toNat)

namespace Value

/-! ## Rendering, comparison and coercion -/

/-- The method `Value::to_string`. -/
def to_string (fl : FloatOps) (v : Value) : List Nat :=
  match v.attr_type_ with
  | INTS => printf_d 0 v.int_value_
  | FLOATS => fl.double_to_str v.float_value_
  | BOOLEANS => if v.bool_value_ then [49] else [48]
  | CHARS => v.str_value_
  | DATES =>
      snprintf 16 (printf_d 4 (v.int_value_.tdiv 10000) ++ [45]
        ++ printf_d 2 ((v.int_value_.tmod 10000).tdiv 100) ++ [45]
        ++ printf_d 2 (v.int_value_.tmod 100))
  | UNDEFINED => []

/-- The text whose last character is dropped before `atof`:
`str_value_.substr(0, str_value_.size() - 1)`. -/
def number_text (v : Value) : List Nat := substr v.str_value_ 0 (size_minus_one v.str_value_)

/-- The method `Value::compare`. -/
def compare (fl : FloatOps) (v other : Value) : Int :=
  if v.attr_type_ = other.attr_type_ then
    match v.attr_type_ with
    | INTS => compare_int v.int_value_ other.int_value_
    | FLOATS => fl.compare_float v.float_value_ other.float_value_
    | CHARS =>
        compare_string (c_str v.str_value_) (int_cast v.str_value_.length)
          (c_str other.str_value_) (int_cast other.str_value_.length)
    | BOOLEANS => compare_int v.int_value_ other.int_value_
    | DATES => compare_int v.int_value_ other.int_value_
    | UNDEFINED => -1
  else if v.attr_type_ = INTS ∧ other.attr_type_ = FLOATS then
    fl.compare_float (fl.int_to_float v.int_value_) other.float_value_
  else if v.attr_type_ = FLOATS ∧ other.attr_type_ = INTS then
    fl.compare_float v.float_value_ (fl.int_to_float other.int_value_)
  else if v.attr_type_ = CHARS ∧ other.attr_type_ = FLOATS then
    fl.compare_float (fl.atof (number_text v)) other.float_value_
  else if v.attr_type_ = FLOATS ∧ other.attr_type_ = CHARS then
    fl.compare_float v.float_value_ (fl.atof (number_text other))
  else if v.attr_type_ = CHARS ∧ other.attr_type_ = INTS then
    fl.compare_float (fl.atof (number_text v)) (fl.int_to_float other.int_value_)
  else if v.attr_type_ = INTS ∧ other.attr_type_ = CHARS then
    fl.compare_float (fl.int_to_float v.int_value_) (fl.atof (number_text other))
  else -1

/-- The method `Value::get_int`. -/
def get_int (fl : FloatOps) (v : Value) : Int :=
  match v.attr_type_ with
  | CHARS =>
      match stol v.str_value_ with
      | some n => int_cast n
      | none => 0
  | INTS => v.int_value_
  | FLOATS => fl.float_to_int v.float_value_
  | BOOLEANS => if v.bool_value_ then 1 else 0
  | DATES => v.int_value_
  | UNDEFINED => 0

/-- The method `Value::get_float`, as a bit pattern (`0` is the pattern of `0.0`). -/
def get_float (fl : FloatOps) (v : Value) : Nat :=
  match v.attr_type_ with
  | CHARS =>
      match fl.stof v.str_value_ with
      | some f => f
      | none => 0
  | INTS => fl.int_to_float v.int_value_
  | FLOATS => v.float_value_
  | BOOLEANS => fl.int_to_float (if v.bool_value_ then 1 else 0)
  | _ => 0

/-- The method `Value::get_string`. -/
def get_string (fl : FloatOps) (v : Value) : List Nat := to_string fl v

/-- The method `Value::get_boolean`. -/
def get_boolean (fl : FloatOps) (v : Value) : Bool :=
  match v.attr_type_ with
  | CHARS =>
      match fl.stof v.str_value_ with
      | none => !v.str_value_.isEmpty
      | some val =>
          if fl.ge_epsilon val then true
          else
            match stol v.str_value_ with
            | none => !v.str_value_.isEmpty
            | some n => if int_cast n ≠ 0 then true else !v.str_value_.isEmpty
  | INTS => v.int_value_ != 0
  | FLOATS => fl.ge_epsilon v.float_value_
  | BOOLEANS => v.bool_value_
  | DATES => v.int_value_ != 0
  | UNDEFINED => false

/-- The method `Value::set_value`; `none` is an abort. In the `UNDEFINED` case
the method does nothing but `ASSERT(false, ...)`. -/
def set_value (fl : FloatOps) (v value : Value) : Option Value :=
  match value.attr_type_ with
  | INTS => some (set_int v (get_int fl value))
  | FLOATS => some (set_float v (get_float fl value))
  | CHARS => some (set_string v (c_str (get_string fl value)) 0)
  | BOOLEANS => some (set_boolean v (get_boolean fl value))
  | DATES => some (set_date v (get_int fl value))
  | UNDEFINED => (ASSERT false).map (fun _ => v)

end Value

/-! ## A reference instance of the floating point parameter

Most theorems below hold for every `FloatOps`. Closed examples need one: `F32.ops`
reads bit patterns as IEEE-754 binary32 numbers. Its conversions between `int`
and `float` are those of IEEE-754; its text functions read decimal integer
literals only and write the exact decimal expansion. Its order `F32.compare` is
the model of `common::compare_float`, taken from the spec. -/

namespace F32

/-- The number of binary digits of `n`, for `fuel` at least that number. -/
def bitlen : Nat → Nat → Nat
  | 0, _ => 0
  | fuel + 1, n => if n = 0 then 0 else bitlen fuel (n / 2) + 1

/-- The binary32 pattern nearest to a natural number (ties to even), the
pattern of infinity when the number is too large. -/
def of_nat (m : Nat) : Nat :=
  if m = 0 then 0
  else
    let p := bitlen m m - 1
    if p ≤ 23 then (p + 127) * 8388608 + (m * 2 ^ (23 - p) - 8388608)
    else
      let q := m / 2 ^ (p - 23)
      let r := m % 2 ^ (p - 23)
      let half := 2 ^ (p - 24)
      let q1 := if half < r ∨ (r = half ∧ q % 2 = 1) then q + 1 else q
      min ((p + 127) * 8388608 + (q1 - 8388608)) 2139095040

/-- The binary32 pattern of a sign and a magnitude. -/
def of_sign_nat (neg : Bool) (m : Nat) : Nat := if neg then 2147483648 + of_nat m else of_nat m

/-- The conversion `(float)i`. -/
def of_int (i : Int) : Nat := of_sign_nat (decide (i < 0)) i.natAbs

/-- Whether a pattern is a NaN. -/
def is_nan (b : Nat) : Bool := decide (2139095040 < b % 2147483648)

/-- An integer ordered as the number a pattern (not a NaN) stands for. -/
def key (b : Nat) : Int :=
  if b / 2147483648 % 2 = 1 then -((b % 2147483648 : Nat) : Int) else ((b % 2147483648 : Nat) : Int)

/-- Modelled from the spec: `common::compare_float`, whose code is not among the
sources. "Float compares as IEEE float", with the outcome one of Less, Equal,
Greater: the three-way order of two patterns by the IEEE-754 relations `<` and
`>`; both are false when a NaN is involved, which gives `0`. -/
def compare (a b : Nat) : Int :=
  if is_nan a || is_nan b then 0 else if key a < key b then -1 else if key b < key a then 1 else 0

/-- The conversion `(int)f`: truncation; for a number outside `int` (and a NaN)
the value the x86 conversion yields. -/
def to_int (b : Nat) : Int :=
  let e := b / 8388608 % 256
  let m := 8388608 + b % 8388608
  let mag : Nat := if e < 127 then 0 else if e < 150 then m / 2 ^ (150 - e) else m * 2 ^ (e - 150)
  if 158 ≤ e then -2147483648 else if b / 2147483648 % 2 = 1 then -(mag : Int) else (mag : Int)

/-- The test `f >= EPSILON || f <= -EPSILON` with `EPSILON = 1E-6`: 897988542 is
the pattern of the least float that is not below it. -/
def ge_epsilon (b : Nat) : Bool := !is_nan b && decide (897988542 ≤ b % 2147483648)

/-- A decimal integer literal at the start of a text, after white space: its
sign and magnitude, or `none` when there is no digit. -/
def int_literal (s : List Nat) : Option (Bool × Nat) :=
  let t := take_sign (s.dropWhile isspace)
  let ds := t.2.takeWhile isdigit
  if ds = [] then none else some (t.1, digits_value ds)

/-- The function `std::stof` on decimal integer literals. -/
def stof (s : List Nat) : Option Nat := (int_literal s).map (fun p => of_sign_nat p.1 p.2)

/-- The function `atof` on decimal integer literals; `0.0` when there is no number. -/
def atof (s : List Nat) : Nat := (stof s).getD 0

/-- The digits of `n` written on exactly `k` places. -/
def fixed_digits : Nat → Nat → List Nat
  | 0, _ => []
  | k + 1, n => fixed_digits k (n / 10) ++ [48 + n % 10]

/-- A list without its trailing `48`s (the digit zero). -/
def strip_zeros (l : List Nat) : List Nat := (l.reverse.dropWhile (fun b => b == 48)).reverse

/-- The exact decimal expansion of a finite pattern, without trailing zeros. -/
def to_str (b : Nat) : List Nat :=
  let e := b / 8388608 % 256
  let m := (if e = 0 then 0 else 8388608) + b % 8388608
  let k := 150 - (if e = 0 then 1 else e)
  let whole := if k = 0 then m * 2 ^ (e - 150) else m / 2 ^ k
  let frac := strip_zeros (fixed_digits k (m % 2 ^ k * 5 ^ k))
  let sign := if b / 2147483648 % 2 = 1 then [45] else []
  if e = 255 then (if b % 8388608 = 0 then sign ++ [105, 110, 102] else [110, 97, 110])
  else sign ++ dec_digits (whole + 1) whole ++ (if frac = [] then [] else 46 :: frac)

/-- The reference instance. -/
def ops : FloatOps :=
  { int_to_float := of_int
    float_to_int := to_int
    atof := atof
    stof := stof
    compare_float := compare
    ge_epsilon := ge_epsilon
    double_to_str := to_str }

/-- The float operations `fl` with `common::compare_float` as modelled from the
spec; the conversions and text functions stay those of `fl`. -/
def with_compare (fl : FloatOps) : FloatOps := { fl with compare_float := compare }

end F32

/-- The bytes of a string literal. -/
def bytes (s : String) : List Nat := s.toList.map (fun c => c.toNat)

/-! ## Runs of mutators -/

namespace Value

/-- Arguments of `set_string` whose text has a length that an `int` holds. -/
def text_fits (s : List Nat) (len : Int) : Prop :=
  (0 < len ∧ len < 2147483648) ∨ strlen s < 2147483648

/-- The values reachable from the default constructor by the mutators of
value.cpp (every other constructor is the default one followed by a mutator).
Two side conditions keep the run within what `length_` can describe: a text
argument has a length that an `int` holds, and `set_data` on an Int, Float or
Date value is handed the four bytes of that kind. -/
inductive Reachable (fl : FloatOps) : Value → Prop
  | fresh (junk : Nat) : Reachable fl (fresh junk)
  | set_int {v : Value} (val : Int) : Reachable fl v → Reachable fl (set_int v val)
  | set_float {v : Value} (val : Nat) : Reachable fl v → Reachable fl (set_float v val)
  | set_boolean {v : Value} (val : Bool) : Reachable fl v → Reachable fl (set_boolean v val)
  | set_string {v : Value} (s : List Nat) (len : Int) :
      Reachable fl v → text_fits s len → Reachable fl (set_string v s len)
  | set_date_ymd {v : Value} (y m d : Int) : Reachable fl v → Reachable fl (set_date_ymd v y m d)
  | set_date {v : Value} (val : Int) : Reachable fl v → Reachable fl (set_date v val)
  | set_data {v : Value} (data : List Nat) (length : Int) :
      Reachable fl v →
      (v.attr_type_ = INTS ∨ v.attr_type_ = FLOATS ∨ v.attr_type_ = DATES → length = 4) →
      (v.attr_type_ = CHARS → text_fits data length) →
      Reachable fl (set_data v data length)
  | set_value {v other w : Value} :
      Reachable fl v → Reachable fl other → set_value fl v other = some w → Reachable fl w

/-- The length invariant carried along a run of mutators. -/
def length_inv (v : Value) : Prop :=
  (v.attr_type_ = INTS ∨ v.attr_type_ = FLOATS ∨ v.attr_type_ = DATES → v.length_ = 4) ∧
    (v.attr_type_ = CHARS →
      v.str_value_.length < 2147483648 ∧ v.length_ = (v.str_value_.length : Int))

end Value

/-! ## Names of the type tags -/

/-- The table `ATTR_TYPE_NAME`. -/
def ATTR_TYPE_NAME : List (List Nat) :=
  [bytes "undefined", bytes "chars", bytes "ints", bytes "floats", bytes "booleans",
    bytes "dates"]

/-- The integer value of an `AttrType` enumerator, which is its place in the table. -/
def AttrType.index : AttrType → Nat
  | UNDEFINED => 0
  | CHARS => 1
  | INTS => 2
  | FLOATS => 3
  | BOOLEANS => 4
  | DATES => 5

/-- The cast `(AttrType)i` of a table position. -/
def AttrType.of_index : Nat → AttrType
  | 1 => CHARS
  | 2 => INTS
  | 3 => FLOATS
  | 4 => BOOLEANS
  | 5 => DATES
  | _ => UNDEFINED

/-- The C function `toupper` in the "C" locale. -/
def toupper (b : Nat) : Nat := if 97 ≤ b ∧ b ≤ 122 then b - 32 else b

/-- The buffer of `n` bytes filled by `strncpy(dst, src, n)`: the first `n`
bytes of the C string `src`, then zero bytes up to `n`. -/
def strncpy (src : List Nat) (n : Nat) : List Nat :=
  (assign_cstr src).take n ++ List.replicate (n - (assign_cstr src).length) 0

/-- The buffer after the loop `for (i = 0; buf[i]; i++) buf[i] = toupper(buf[i])`:
the bytes before the first zero byte are put in upper case. -/
def upper_loop : List Nat → List Nat
  | [] => []
  | b :: rest => if b = 0 then b :: rest else toupper b :: upper_loop rest

/-- The C function `strcmp` on the bytes at two pointers: the order of the two C strings. -/
def strcmp (a b : List Nat) : Int := lex_compare (assign_cstr a) (assign_cstr b)

/-- The function `attr_type_to_string`; the result is the C string at the
returned pointer. The static buffer `type_name_upper` has 32 bytes. -/
def attr_type_to_string (type : AttrType) : List Nat :=
  if UNDEFINED.index ≤ type.index ∧ type.index ≤ DATES.index then
    if type ≠ DATES then ATTR_TYPE_NAME.getD type.index []
    else assign_cstr (upper_loop ((strncpy (ATTR_TYPE_NAME.getD type.index []) 32).set 31 0))
  else bytes "unknown"

/-- The loop of `attr_type_from_string` from table position `i` on: the first
position whose name is `strcmp`-equal to `s`. -/
def find_name (s : List Nat) : List (List Nat) → Nat → Option Nat
  | [], _ => none
  | name :: rest, i => if strcmp name s = 0 then some i else find_name s rest (i + 1)

/-- The function `attr_type_from_string`; `s` is the bytes at the pointer. -/
def attr_type_from_string (s : List Nat) : AttrType :=
  match find_name s ATTR_TYPE_NAME 0 with
  | some i => AttrType.of_index i
  | none => UNDEFINED

/-- The integer written by an optional sign (`-` is the byte 45) and a run of digits. -/
def signed_value (sg ds : List Nat) : Int :=
  if sg = [45] then -((digits_value ds : Nat) : Int) else ((digits_value ds : Nat) : Int)

/-! ## Theorems -/

/-! ## Machine integer lemmas -/

/-- A 32-bit signed integer survives the trip through the cell. -/
theorem to_int32_to_cell (i : Int) (h1 : -2147483648 ≤ i) (h2 : i < 2147483648) :
    to_int32 (to_cell i) = i := by
  unfold to_int32 to_cell
  omega

/-- A length below `2 ^ 31` is unchanged by the conversion to `int`. -/
theorem int_cast_of_nat (n : Nat) (h : n < 2147483648) : int_cast (n : Int) = n := by
  unfold int_cast
  exact to_int32_to_cell _ (by omega) (by omega)

/-- The integer comparator is reflexive. -/
theorem compare_int_self (a : Int) : compare_int a a = 0 := by
  simp [compare_int]

/-- The integer comparator changes sign when its arguments are swapped. -/
theorem compare_int_antisymm (a b : Int) :
    Int.sign (compare_int a b) = -Int.sign (compare_int b a) := by
  unfold compare_int
  rcases lt_trichotomy a b with h | h | h
  · have h1 : ¬ b < a := by omega
    have h2 : ¬ b = a := by omega
    simp [h, h1, h2]
  · subst h
    simp
  · have h1 : ¬ a < b := by omega
    have h2 : ¬ a = b := by omega
    simp [h, h1, h2]

/-- The byte-lexicographic order is reflexive. -/
theorem lex_compare_self (s : List Nat) : lex_compare s s = 0 := by
  induction s with
  | nil => rfl
  | cons a s ih => simp [lex_compare, ih]

/-- The byte-lexicographic order changes sign when its arguments are swapped. -/
theorem lex_compare_antisymm (s t : List Nat) :
    Int.sign (lex_compare s t) = -Int.sign (lex_compare t s) := by
  induction s generalizing t with
  | nil => cases t <;> simp [lex_compare]
  | cons a s ih =>
    cases t with
    | nil => simp [lex_compare]
    | cons b t =>
      simp only [lex_compare]
      rcases lt_trichotomy a b with h | h | h
      · have h1 : ¬ b < a := by omega
        simp [h, h1]
      · subst h
        simp [ih]
      · have h1 : ¬ a < b := by omega
        simp [h, h1]

namespace Value

/-- The first branch of `Value::compare`: two Values of one kind. -/
theorem compare_same_kind (fl : FloatOps) (a b : Value) (h : a.attr_type_ = b.attr_type_) :
    compare fl a b =
      match a.attr_type_ with
      | INTS => compare_int a.int_value_ b.int_value_
      | FLOATS => fl.compare_float a.float_value_ b.float_value_
      | CHARS =>
          compare_string (c_str a.str_value_) (int_cast a.str_value_.length)
            (c_str b.str_value_) (int_cast b.str_value_.length)
      | BOOLEANS => compare_int a.int_value_ b.int_value_
      | DATES => compare_int a.int_value_ b.int_value_
      | UNDEFINED => -1 := by
  simp [compare, h]

/-- The float comparator modelled from the spec is reflexive. -/
theorem F32_compare_self (x : Nat) : F32.compare x x = 0 := by
  unfold F32.compare
  split_ifs <;> first | rfl | omega

/-- Claim C1 (amended): a Value of any kind but Undefined compares equal to
itself, `v.compare(v) = 0`: for the kind Float with `compare_float` as modelled
from the spec, for the kinds Int, Bool, Date and Text whatever the float
operations are. -/
theorem compare_self (fl : FloatOps) (v : Value) (hk : v.attr_type_ ≠ UNDEFINED) :
    compare (F32.with_compare fl) v v = 0 ∧
      (v.attr_type_ ≠ FLOATS → compare fl v v = 0) := by
  rw [compare_same_kind (F32.with_compare fl) v v rfl, compare_same_kind fl v v rfl]
  cases hv : v.attr_type_ with
  | UNDEFINED => exact absurd hv hk
  | CHARS => simp [compare_string, lex_compare_self]
  | INTS => simp [compare_int_self]
  | FLOATS => simp [F32.with_compare, F32_compare_self]
  | BOOLEANS => simp [compare_int_self]
  | DATES => simp [compare_int_self]

/-- Witness of C1 on a Value of each kind but Undefined. -/
theorem compare_self_witness :
    compare F32.ops (of_int 0 (-7)) (of_int 0 (-7)) = 0 ∧
      compare F32.ops (of_float 0 1094713344) (of_float 0 1094713344) = 0 ∧
      compare F32.ops (of_float 0 2143289344) (of_float 0 2143289344) = 0 ∧
      compare F32.ops (of_bool 9 true) (of_bool 9 true) = 0 ∧
      compare F32.ops (of_string 0 (bytes "abc") 0) (of_string 0 (bytes "abc") 0) = 0 ∧
      compare F32.ops (of_date 0 2023 6 1) (of_date 0 2023 6 1) = 0 :=
  ⟨(compare_self F32.ops (of_int 0 (-7)) (by decide)).1,
   (compare_self F32.ops (of_float 0 1094713344) (by decide)).1,
   (compare_self F32.ops (of_float 0 2143289344) (by decide)).1,
   (compare_self F32.ops (of_bool 9 true) (by decide)).1,
   (compare_self F32.ops (of_string 0 (bytes "abc") 0) (by decide)).1,
   (compare_self F32.ops (of_date 0 2023 6 1) (by decide)).1⟩

/-- Counterexample to C1 as stated: a default-constructed Value compared with
itself gives `-1`. -/
theorem compare_self_undefined :
    compare F32.ops (fresh 0) (fresh 0) = -1 ∧ compare F32.ops (fresh 0) (fresh 0) ≠ 0 := by
  decide

/-- The order of the reference float instance changes sign when its arguments are swapped. -/
theorem F32_compare_antisymm (x y : Nat) :
    Int.sign (F32.compare x y) = -Int.sign (F32.compare y x) := by
  unfold F32.compare
  by_cases hn : (F32.is_nan x || F32.is_nan y) = true
  · have hn2 : (F32.is_nan y || F32.is_nan x) = true := by
      rw [Bool.or_comm]; exact hn
    simp [hn, hn2]
  · have hn2 : ¬ (F32.is_nan y || F32.is_nan x) = true := by
      rw [Bool.or_comm]; exact hn
    rw [if_neg hn, if_neg hn2]
    rcases lt_trichotomy (F32.key x) (F32.key y) with h | h | h
    · have h1 : ¬ F32.key y < F32.key x := by omega
      simp [h, h1]
    · simp [h]
    · have h1 : ¬ F32.key x < F32.key y := by omega
      simp [h, h1]

/-- Claim C2: on the supported pairs, two Values of the same kind (Int, Float,
Bool, Date or Text) or one Int and one Float, `sign(a.compare(b)) =
-sign(b.compare(a))`: with `compare_float` as modelled from the spec and every
int-to-float conversion, and for two Values of the same kind other than Float
whatever the float operations are. -/
theorem compare_antisymm (fl : FloatOps) (a b : Value)
    (hk : (a.attr_type_ = b.attr_type_ ∧ a.attr_type_ ≠ UNDEFINED) ∨
      (a.attr_type_ = INTS ∧ b.attr_type_ = FLOATS) ∨
      (a.attr_type_ = FLOATS ∧ b.attr_type_ = INTS)) :
    Int.sign (compare (F32.with_compare fl) a b)
        = -Int.sign (compare (F32.with_compare fl) b a) ∧
      (a.attr_type_ = b.attr_type_ → a.attr_type_ ≠ FLOATS →
        Int.sign (compare fl a b) = -Int.sign (compare fl b a)) := by
  have same : ∀ g : FloatOps, a.attr_type_ = b.attr_type_ → a.attr_type_ ≠ UNDEFINED →
      (a.attr_type_ = FLOATS →
        ∀ x y, Int.sign (g.compare_float x y) = -Int.sign (g.compare_float y x)) →
      Int.sign (compare g a b) = -Int.sign (compare g b a) := by
    intro g he hu hg
    rw [compare_same_kind g a b he, compare_same_kind g b a he.symm, ← he]
    cases hv : a.attr_type_ with
    | UNDEFINED => exact absurd hv hu
    | CHARS => exact lex_compare_antisymm _ _
    | INTS => exact compare_int_antisymm _ _
    | FLOATS => exact hg hv _ _
    | BOOLEANS => exact compare_int_antisymm _ _
    | DATES => exact compare_int_antisymm _ _
  constructor
  · rcases hk with ⟨he, hu⟩ | ⟨ha, hb⟩ | ⟨ha, hb⟩
    · exact same (F32.with_compare fl) he hu (fun _ => F32_compare_antisymm)
    · have e1 : compare (F32.with_compare fl) a b
          = F32.compare (fl.int_to_float a.int_value_) b.float_value_ := by
        simp [compare, ha, hb, F32.with_compare]
      have e2 : compare (F32.with_compare fl) b a
          = F32.compare b.float_value_ (fl.int_to_float a.int_value_) := by
        simp [compare, ha, hb, F32.with_compare]
      rw [e1, e2]
      exact F32_compare_antisymm _ _
    · have e1 : compare (F32.with_compare fl) a b
          = F32.compare a.float_value_ (fl.int_to_float b.int_value_) := by
        simp [compare, ha, hb, F32.with_compare]
      have e2 : compare (F32.with_compare fl) b a
          = F32.compare (fl.int_to_float b.int_value_) a.float_value_ := by
        simp [compare, ha, hb, F32.with_compare]
      rw [e1, e2]
      exact F32_compare_antisymm _ _
  · intro he hnf
    have hu : a.attr_type_ ≠ UNDEFINED := by
      rcases hk with ⟨_, hu⟩ | ⟨ha, hb⟩ | ⟨ha, hb⟩
      · exact hu
      · rw [ha]; decide
      · rw [ha]; decide
    exact same fl he hu (fun hf => absurd hf hnf)

/-- Witness of C2: an Int against a Float both ways, two Floats, two Texts and
two Bools. -/
theorem compare_antisymm_witness :
    (Int.sign (compare F32.ops (of_int 0 3) (of_float 0 1094713344)) = -1 ∧
      Int.sign (compare F32.ops (of_float 0 1094713344) (of_int 0 3)) = 1) ∧
    Int.sign (compare F32.ops (of_int 0 3) (of_float 0 1094713344))
      = -Int.sign (compare F32.ops (of_float 0 1094713344) (of_int 0 3)) ∧
    Int.sign (compare F32.ops (of_float 0 1094713344) (of_float 0 3212836864))
      = -Int.sign (compare F32.ops (of_float 0 3212836864) (of_float 0 1094713344)) ∧
    Int.sign (compare F32.ops (of_string 0 (bytes "ab") 0) (of_string 0 (bytes "b") 0))
      = -Int.sign (compare F32.ops (of_string 0 (bytes "b") 0) (of_string 0 (bytes "ab") 0)) ∧
    Int.sign (compare F32.ops (of_bool 0 false) (of_bool 0 true))
      = -Int.sign (compare F32.ops (of_bool 0 true) (of_bool 0 false)) :=
  ⟨by decide,
   (compare_antisymm F32.ops (of_int 0 3) (of_float 0 1094713344)
      (Or.inr (Or.inl ⟨by decide, by decide⟩))).1,
   (compare_antisymm F32.ops (of_float 0 1094713344) (of_float 0 3212836864)
      (Or.inl ⟨by decide, by decide⟩)).1,
   (compare_antisymm F32.ops (of_string 0 (bytes "ab") 0) (of_string 0 (bytes "b") 0)
      (Or.inl ⟨by decide, by decide⟩)).1,
   (compare_antisymm F32.ops (of_bool 0 false) (of_bool 0 true)
      (Or.inl ⟨by decide, by decide⟩)).1⟩

/-- Claim C3: when both kinds are Undefined, or the kinds differ and are not
both among Int, Float and Text, `a.compare(b)` and `b.compare(a)` are both the
sentinel `-1`, whatever the payloads. -/
theorem compare_unsupported (fl : FloatOps) (a b : Value)
    (h : (a.attr_type_ = UNDEFINED ∧ b.attr_type_ = UNDEFINED) ∨
      (a.attr_type_ ≠ b.attr_type_ ∧
        ¬ (a.attr_type_ ∈ [INTS, FLOATS, CHARS] ∧ b.attr_type_ ∈ [INTS, FLOATS, CHARS]))) :
    compare fl a b = -1 ∧ compare fl b a = -1 := by
  cases ha : a.attr_type_ <;> cases hb : b.attr_type_ <;>
    simp [ha, hb] at h <;> simp [compare, ha, hb]

/-- Witness of C3: Bool against Int, Date against Int, Undefined against Undefined. -/
theorem compare_unsupported_witness :
    (compare F32.ops (of_bool 0 true) (of_int 0 1) = -1 ∧
        compare F32.ops (of_int 0 1) (of_bool 0 true) = -1) ∧
      (compare F32.ops (set_date (fresh 0) 20230601) (of_int 0 20230601) = -1 ∧
        compare F32.ops (of_int 0 20230601) (set_date (fresh 0) 20230601) = -1) ∧
      (compare F32.ops (fresh 7) (fresh 9) = -1 ∧ compare F32.ops (fresh 9) (fresh 7) = -1) :=
  ⟨compare_unsupported F32.ops (of_bool 0 true) (of_int 0 1) (Or.inr ⟨by decide, by decide⟩),
   compare_unsupported F32.ops (set_date (fresh 0) 20230601) (of_int 0 20230601)
     (Or.inr ⟨by decide, by decide⟩),
   compare_unsupported F32.ops (fresh 7) (fresh 9) (Or.inl ⟨by decide, by decide⟩)⟩

/-- The text `substr(0, size() - 1)` is the text without its last byte, also when it is empty. -/
theorem size_minus_one_substr (s : List Nat) (h : s.length < 18446744073709551616) :
    substr s 0 (size_minus_one s) = s.dropLast := by
  unfold substr size_minus_one
  rw [List.drop_zero, List.dropLast_eq_take]
  cases s with
  | nil => simp
  | cons a s =>
    have e : ((a :: s).length + 18446744073709551616 - 1) % 18446744073709551616
        = (a :: s).length - 1 := by
      simp only [List.length_cons] at h ⊢
      omega
    rw [e]

/-- Claim C4: for a Text value `t` and an Int or Float value `n`,
`t.compare(n)` is `compare_float` of `atof` of the text without its last
character against `n` as a float (converted when `n` is an Int), and
`n.compare(t)` is the same comparison with the operands swapped; the empty text
is parsed as it is. -/
theorem compare_text_number (fl : FloatOps) (t n : Value)
    (ht : t.attr_type_ = CHARS) (hn : n.attr_type_ = INTS ∨ n.attr_type_ = FLOATS)
    (hlen : t.str_value_.length < 18446744073709551616) :
    compare fl t n
        = fl.compare_float (fl.atof t.str_value_.dropLast)
            (if n.attr_type_ = INTS then fl.int_to_float n.int_value_ else n.float_value_) ∧
      compare fl n t
        = fl.compare_float
            (if n.attr_type_ = INTS then fl.int_to_float n.int_value_ else n.float_value_)
            (fl.atof t.str_value_.dropLast) := by
  rcases hn with hn | hn <;>
    simp [compare, ht, hn, number_text, size_minus_one_substr _ hlen]

/-- Witness of C4: the three examples of the claim, with the reference float instance. -/
theorem compare_text_number_witness :
    (compare F32.ops (of_string 0 (bytes "12x") 0) (of_int 0 12)
        = F32.compare (F32.atof (bytes "12")) (F32.of_int 12) ∧
      compare F32.ops (of_int 0 12) (of_string 0 (bytes "12x") 0)
        = F32.compare (F32.of_int 12) (F32.atof (bytes "12"))) ∧
    compare F32.ops (of_string 0 (bytes "12x") 0) (of_int 0 12) = 0 ∧
    compare F32.ops (of_string 0 (bytes "12") 0) (of_int 0 12) < 0 ∧
    compare F32.ops (of_string 0 (bytes "") 0) (of_int 0 0) = 0 :=
  ⟨compare_text_number F32.ops (of_string 0 (bytes "12x") 0) (of_int 0 12) (by decide)
      (Or.inl (by decide)) (by decide),
    by decide, by decide, by decide⟩

/-- Claim C5: for 32-bit signed integers `a` and `b`, two Int values set to `a`
and `b` compare negative when `a < b`, zero when `a = b` and positive when
`a > b`, and so do two Date values set to `a` and `b`. -/
theorem compare_int_order (fl : FloatOps) (v w : Value) (a b : Int)
    (ha1 : -2147483648 ≤ a) (ha2 : a < 2147483648)
    (hb1 : -2147483648 ≤ b) (hb2 : b < 2147483648) :
    ((a < b → compare fl (set_int v a) (set_int w b) < 0) ∧
      (a = b → compare fl (set_int v a) (set_int w b) = 0) ∧
      (b < a → 0 < compare fl (set_int v a) (set_int w b))) ∧
    ((a < b → compare fl (set_date v a) (set_date w b) < 0) ∧
      (a = b → compare fl (set_date v a) (set_date w b) = 0) ∧
      (b < a → 0 < compare fl (set_date v a) (set_date w b))) := by
  have e1 : compare fl (set_int v a) (set_int w b) = compare_int a b := by
    simp [compare, set_int, int_value_, to_int32_to_cell, ha1, ha2, hb1, hb2]
  have e2 : compare fl (set_date v a) (set_date w b) = compare_int a b := by
    simp [compare, set_date, int_value_, to_int32_to_cell, ha1, ha2, hb1, hb2]
  rw [e1, e2]
  unfold compare_int
  refine ⟨⟨?_, ?_, ?_⟩, ⟨?_, ?_, ?_⟩⟩ <;> intro h <;> split_ifs <;> omega

/-- Witness of C5 at `INT_MIN` against `INT_MAX` and at two dates. -/
theorem compare_int_order_witness :
    compare F32.ops (of_int 0 (-2147483648)) (of_int 0 2147483647) < 0 ∧
      0 < compare F32.ops (set_date (fresh 0) 20230601) (set_date (fresh 0) 19991231) :=
  ⟨(compare_int_order F32.ops (fresh 0) (fresh 0) (-2147483648) 2147483647
      (by decide) (by decide) (by decide) (by decide)).1.1 (by decide),
   (compare_int_order F32.ops (fresh 0) (fresh 0) 20230601 19991231
      (by decide) (by decide) (by decide) (by decide)).2.2.2 (by decide)⟩

/-- The byte-lexicographic order is zero on equal texts only. -/
theorem lex_compare_eq_zero (s t : List Nat) : lex_compare s t = 0 ↔ s = t := by
  induction s generalizing t with
  | nil => cases t <;> simp [lex_compare]
  | cons a s ih =>
    cases t with
    | nil => simp [lex_compare]
    | cons b t =>
      simp only [lex_compare]
      rcases lt_trichotomy a b with h | h | h
      · have : a ≠ b := by omega
        simp [h, this]
      · subst h
        simp [ih]
      · have h1 : ¬ a < b := by omega
        have : a ≠ b := by omega
        simp [h, h1, this]

/-- A common start does not change the byte-lexicographic order. -/
theorem lex_compare_append_left (p s t : List Nat) :
    lex_compare (p ++ s) (p ++ t) = lex_compare s t := by
  induction p with
  | nil => rfl
  | cons a p ih => simp [lex_compare, ih]

/-- The empty text is below every other text. -/
theorem lex_compare_nil_left (u : List Nat) (h : u ≠ []) : lex_compare [] u = -1 := by
  cases u with
  | nil => exact absurd rfl h
  | cons a u => rfl

/-- Every non-empty text is above the empty text. -/
theorem lex_compare_nil_right (u : List Nat) (h : u ≠ []) : lex_compare u [] = 1 := by
  cases u with
  | nil => exact absurd rfl h
  | cons a u => rfl

/-- Two Text values whose lengths fit an `int` compare as their texts do. -/
theorem compare_chars (fl : FloatOps) (s t : Value)
    (hs : s.attr_type_ = CHARS) (ht : t.attr_type_ = CHARS)
    (hls : s.str_value_.length < 2147483648) (hlt : t.str_value_.length < 2147483648) :
    compare fl s t = lex_compare s.str_value_ t.str_value_ := by
  rw [compare_same_kind fl s t (by rw [hs, ht]), hs]
  simp [compare_string, c_str, int_cast_of_nat _ hls, int_cast_of_nat _ hlt]

/-- Claim C6: for two Text values, `s.compare(t)` is zero exactly when the texts
are equal, negative when `s` is a proper start of `t`, positive when `t` is a
proper start of `s`, and otherwise has the sign of the difference of the first
differing bytes. -/
theorem compare_text_order (fl : FloatOps) (s t : Value)
    (hs : s.attr_type_ = CHARS) (ht : t.attr_type_ = CHARS)
    (hls : s.str_value_.length < 2147483648) (hlt : t.str_value_.length < 2147483648) :
    (compare fl s t = 0 ↔ s.str_value_ = t.str_value_) ∧
    (∀ u : List Nat, u ≠ [] → t.str_value_ = s.str_value_ ++ u → compare fl s t < 0) ∧
    (∀ u : List Nat, u ≠ [] → s.str_value_ = t.str_value_ ++ u → 0 < compare fl s t) ∧
    (∀ (p : List Nat) (x y : Nat) (r1 r2 : List Nat), s.str_value_ = p ++ x :: r1 → t.str_value_ = p ++ y :: r2 → x ≠ y →
      Int.sign (compare fl s t) = Int.sign ((x : Int) - (y : Int))) := by
  rw [compare_chars fl s t hs ht hls hlt]
  refine ⟨lex_compare_eq_zero _ _, ?_, ?_, ?_⟩
  · intro u hu e
    have := lex_compare_append_left s.str_value_ [] u
    rw [List.append_nil] at this
    rw [e, this, lex_compare_nil_left u hu]
    decide
  · intro u hu e
    have := lex_compare_append_left t.str_value_ u []
    rw [List.append_nil] at this
    rw [e, this, lex_compare_nil_right u hu]
    decide
  · intro p x y r1 r2 e1 e2 hxy
    rw [e1, e2, lex_compare_append_left]
    simp only [lex_compare]
    rcases lt_trichotomy x y with h | h | h
    · have h2 : (x : Int) - (y : Int) < 0 := by omega
      rw [if_pos h, Int.sign_eq_neg_one_of_neg h2]
      rfl
    · exact absurd h hxy
    · have h1 : ¬ x < y := by omega
      have h2 : 0 < (x : Int) - (y : Int) := by omega
      rw [if_neg h1, if_pos h, Int.sign_eq_one_of_pos h2]
      rfl

/-- Witness of C6. -/
theorem compare_text_order_witness :
    compare F32.ops (of_string 0 (bytes "abc") 0) (of_string 0 (bytes "abc") 0) = 0 ∧
    compare F32.ops (of_string 0 (bytes "ab") 0) (of_string 0 (bytes "abc") 0) < 0 ∧
    0 < compare F32.ops (of_string 0 (bytes "abc") 0) (of_string 0 (bytes "ab") 0) ∧
    Int.sign (compare F32.ops (of_string 0 (bytes "abd") 0) (of_string 0 (bytes "abcz") 0))
      = Int.sign ((100 : Int) - 99) :=
  ⟨(compare_text_order F32.ops (of_string 0 (bytes "abc") 0) (of_string 0 (bytes "abc") 0)
      (by decide) (by decide) (by decide) (by decide)).1.2 (by decide),
   (compare_text_order F32.ops (of_string 0 (bytes "ab") 0) (of_string 0 (bytes "abc") 0)
      (by decide) (by decide) (by decide) (by decide)).2.1 [99] (by decide) (by decide),
   by decide, by decide⟩

/-- The conversion `%02d` of a number below 100. -/
theorem printf_d_two (n : Nat) (h : n ≤ 99) :
    printf_d 2 (n : Int) = [48 + n / 10, 48 + n % 10] := by
  have h0 : ¬ ((n : Int) < 0) := by omega
  simp only [printf_d, h0, if_false, Int.natAbs_ofNat, dec_digits]
  by_cases h1 : n < 10
  · have e1 : n / 10 = 0 := by omega
    have e2 : n % 10 = n := by omega
    simp [h1, e1, e2]
  · have h2 : n / 10 < 10 := by omega
    simp [h1, h2]

/-- The conversion `%04d` of a number below 10000. -/
theorem printf_d_four (n : Nat) (h : n ≤ 9999) :
    printf_d 4 (n : Int) = [48 + n / 1000, 48 + n / 100 % 10, 48 + n / 10 % 10, 48 + n % 10] := by
  have h0 : ¬ ((n : Int) < 0) := by omega
  simp only [printf_d, h0, if_false, Int.natAbs_ofNat, dec_digits]
  by_cases h1 : n < 10
  · have e1 : n / 1000 = 0 := by omega
    have e2 : n / 100 = 0 := by omega
    have e3 : n / 10 = 0 := by omega
    have e4 : n % 10 = n := by omega
    simp [h1, e1, e2, e3, e4]
  · by_cases h2 : n / 10 < 10
    · have e1 : n / 1000 = 0 := by omega
      have e2 : n / 100 = 0 := by omega
      have e3 : n / 10 % 10 = n / 10 := by omega
      simp [h1, h2, e1, e2, e3]
    · by_cases h3 : n / 10 / 10 < 10
      · have e1 : n / 1000 = 0 := by omega
        have e2 : n / 100 % 10 = n / 10 / 10 := by omega
        simp [h1, h2, h3, e1, e2]
      · have h4 : n / 10 / 10 / 10 < 10 := by omega
        have e1 : n / 1000 = n / 10 / 10 / 10 := by omega
        have e2 : n / 100 % 10 = n / 10 / 10 % 10 := by omega
        simp [h1, h2, h3, h4, e1, e2]

/-- The packed date of fields in range is stored without overflow. -/
theorem date_fields (y m d : Nat) (hy : y ≤ 9999) (hm : m ≤ 99) (hd : d ≤ 99) :
    to_int32 (to_cell ((y : Int) * 10000 + (m : Int) * 100 + (d : Int)))
      = ((y * 10000 + m * 100 + d : Nat) : Int) := by
  rw [to_int32_to_cell _ (by omega) (by omega)]
  push_cast
  ring

/-- Claim C7: for `y` in 0..9999 and `m`, `d` in 0..99, the Value built by
`set_date(y, m, d)`, which is the one built by `set_date(y*10000 + m*100 + d)`,
renders as the ten characters `YYYY-MM-DD` with zero padding, the three fields
being `v/10000`, `(v%10000)/100` and `v%100` of the packed value `v`. -/
theorem date_to_string (fl : FloatOps) (v : Value) (y m d : Nat)
    (hy : y ≤ 9999) (hm : m ≤ 99) (hd : d ≤ 99) :
    to_string fl (set_date_ymd v y m d)
        = [48 + y / 1000, 48 + y / 100 % 10, 48 + y / 10 % 10, 48 + y % 10, 45,
            48 + m / 10, 48 + m % 10, 45, 48 + d / 10, 48 + d % 10] ∧
      set_date_ymd v y m d = set_date v ((y : Int) * 10000 + (m : Int) * 100 + (d : Int)) ∧
      (set_date_ymd v y m d).int_value_.tdiv 10000 = y ∧
      ((set_date_ymd v y m d).int_value_.tmod 10000).tdiv 100 = m ∧
      (set_date_ymd v y m d).int_value_.tmod 100 = d := by
  have hv : (set_date_ymd v y m d).int_value_ = ((y * 10000 + m * 100 + d : Nat) : Int) := by
    simp only [set_date_ymd, int_value_]
    exact date_fields y m d hy hm hd
  have q1 : (((y * 10000 + m * 100 + d : Nat) : Int)).tdiv 10000 = (y : Int) := by
    rw [show (10000 : Int) = ((10000 : Nat) : Int) from rfl, ← Int.ofNat_tdiv]
    congr 1
    omega
  have q2 : ((((y * 10000 + m * 100 + d : Nat) : Int)).tmod 10000).tdiv 100 = (m : Int) := by
    rw [show (10000 : Int) = ((10000 : Nat) : Int) from rfl,
      show (100 : Int) = ((100 : Nat) : Int) from rfl, ← Int.ofNat_tmod, ← Int.ofNat_tdiv]
    congr 1
    omega
  have q3 : (((y * 10000 + m * 100 + d : Nat) : Int)).tmod 100 = (d : Int) := by
    rw [show (100 : Int) = ((100 : Nat) : Int) from rfl, ← Int.ofNat_tmod]
    congr 1
    omega
  refine ⟨?_, rfl, ?_, ?_, ?_⟩
  · have hk : (set_date_ymd v y m d).attr_type_ = DATES := rfl
    simp only [to_string, hk, hv, q1, q2, q3, printf_d_four y hy, printf_d_two m hm,
      printf_d_two d hd, snprintf]
    rfl
  · rw [hv, q1]
  · rw [hv, q2]
  · rw [hv, q3]

/-- Witness of C7: the date 2023-06-01. -/
theorem date_to_string_witness :
    to_string F32.ops (set_date_ymd (fresh 0) 2023 6 1) = bytes "2023-06-01" ∧
      to_string F32.ops (set_date (fresh 0) 20230601) = bytes "2023-06-01" :=
  ⟨(date_to_string F32.ops (fresh 0) 2023 6 1 (by decide) (by decide) (by decide)).1.trans
      (by decide), by decide⟩

/-- The bytes before the terminator are the first `strlen` bytes. -/
theorem takeWhile_eq_take_strlen (s : List Nat) :
    s.takeWhile (fun b => b != 0) = s.take (strlen s) := by
  unfold strlen
  induction s with
  | nil => rfl
  | cons a s ih =>
    by_cases h : (a != 0) = true
    · simp only [List.takeWhile_cons, h, if_true, List.length_cons, List.take_succ_cons]
      rw [← ih]
    · simp [List.takeWhile_cons, h]

/-- The function `strnlen` is the smaller of the bound and `strlen`. -/
theorem strnlen_eq_min (s : List Nat) (n : Nat) : strnlen s n = min n (strlen s) := by
  unfold strnlen strlen
  induction s generalizing n with
  | nil => simp
  | cons a s ih =>
    cases n with
    | zero => simp
    | succ n =>
      by_cases h : (a != 0) = true
      · simp only [List.take_succ_cons, List.takeWhile_cons, h, if_true, List.length_cons, ih n]
        omega
      · simp [List.takeWhile_cons, h]

/-- Claim C8: `set_string(s, max_len)` with `max_len > 0` stores the first
`min(max_len, strlen(s))` bytes of `s`, and with `max_len = 0` all of `s` up to
its terminator; the kind is Text and the stored length is the length of the
stored text. The lengths are those an `int` holds. -/
theorem set_string_bounded (v : Value) (s : List Nat) (max_len : Int)
    (h0 : 0 ≤ max_len) (h1 : max_len < 2147483648)
    (hs : max_len = 0 → strlen s < 2147483648) :
    (set_string v s max_len).str_value_
        = (if 0 < max_len then s.take (min max_len.toNat (strlen s)) else s.take (strlen s)) ∧
      (set_string v s max_len).attr_type_ = CHARS ∧
      (set_string v s max_len).length_ = ((set_string v s max_len).str_value_.length : Int) := by
  have hstr : (set_string v s max_len).str_value_
      = (if 0 < max_len then s.take (min max_len.toNat (strlen s)) else s.take (strlen s)) := by
    by_cases h : 0 < max_len
    · simp [set_string, h, assign_n, strnlen_eq_min]
    · simp [set_string, h, assign_cstr, takeWhile_eq_take_strlen]
  refine ⟨hstr, rfl, ?_⟩
  have hlen : (set_string v s max_len).str_value_.length < 2147483648 := by
    rw [hstr]
    by_cases h : 0 < max_len
    · rw [if_pos h, List.length_take]
      omega
    · have hz : max_len = 0 := by omega
      have := hs hz
      rw [if_neg h, List.length_take]
      omega
  exact int_cast_of_nat _ hlen

/-- Witness of C8: `Value("hello world", 5)`. -/
theorem set_string_bounded_witness :
    (of_string 0 (bytes "hello world") 5).str_value_ = bytes "hello" ∧
      (of_string 0 (bytes "hello world") 5).length_ = 5 ∧
      to_string F32.ops (of_string 0 (bytes "hello world") 5) = bytes "hello" ∧
      (of_string 0 (bytes "hello world") 0).str_value_ = bytes "hello world" :=
  ⟨(set_string_bounded (fresh 0) (bytes "hello world") 5 (by decide) (by decide)
      (by decide)).1.trans (by decide), by decide, by decide, by decide⟩

/-- The text stored by `set_string` is shorter than `2 ^ 31` bytes when its arguments fit. -/
theorem set_string_length_lt (v : Value) (s : List Nat) (len : Int) (h : text_fits s len) :
    (set_string v s len).str_value_.length < 2147483648 := by
  by_cases hl : 0 < len
  · have e : (set_string v s len).str_value_ = s.take (min len.toNat (strlen s)) := by
      simp [set_string, hl, assign_n, strnlen_eq_min]
    rw [e, List.length_take]
    rcases h with ⟨_, h2⟩ | h
    · omega
    · omega
  · have e : (set_string v s len).str_value_ = s.take (strlen s) := by
      simp [set_string, hl, assign_cstr, takeWhile_eq_take_strlen]
    rw [e, List.length_take]
    rcases h with ⟨h1, _⟩ | h
    · exact absurd h1 hl
    · omega

/-- The length stored by `set_string` is the length of the stored text when its arguments fit. -/
theorem set_string_length_eq (v : Value) (s : List Nat) (len : Int) (h : text_fits s len) :
    (set_string v s len).length_ = ((set_string v s len).str_value_.length : Int) :=
  int_cast_of_nat _ (set_string_length_lt v s len h)

/-- The C string at `c_str()` is no longer than the text. -/
theorem strlen_c_str_le (s : List Nat) : strlen (c_str s) ≤ s.length := by
  unfold strlen c_str
  have h := (List.takeWhile_sublist (fun b => b != 0) (l := s ++ [0])).length_le
  have h2 : ((s ++ [0]).takeWhile (fun b => b != 0)).length ≠ (s ++ [0]).length := by
    intro e
    have e2 := List.Sublist.eq_of_length (List.takeWhile_sublist (fun b => b != 0) (l := s ++ [0])) e
    have hm : (0 : Nat) ∈ (s ++ [0]).takeWhile (fun b => b != 0) := by
      rw [e2]; simp
    have := List.mem_takeWhile_imp hm
    simp at this
  simp only [List.length_append, List.length_singleton] at h h2
  omega

/-- The mutator `set_string` establishes the length invariant. -/
theorem set_string_inv (v : Value) (s : List Nat) (len : Int) (h : text_fits s len) :
    length_inv (set_string v s len) := by
  refine ⟨?_, fun _ => ⟨set_string_length_lt v s len h, set_string_length_eq v s len h⟩⟩
  intro hk
  have : (set_string v s len).attr_type_ = CHARS := rfl
  rw [this] at hk
  simp at hk

/-- Every reachable Value satisfies the length invariant. -/
theorem reachable_length_inv (fl : FloatOps) (v : Value) (h : Reachable fl v) :
    length_inv v := by
  induction h with
  | fresh junk => simp [length_inv, fresh]
  | set_int val _ _ => simp [length_inv, Value.set_int, sizeof_int]
  | set_float val _ _ => simp [length_inv, Value.set_float, sizeof_int]
  | set_boolean val _ _ => simp [length_inv, Value.set_boolean]
  | set_string s len _ hf _ => exact set_string_inv _ s len hf
  | set_date_ymd y m d _ _ => simp [length_inv, Value.set_date_ymd, sizeof_int]
  | set_date val _ _ => simp [length_inv, Value.set_date, sizeof_int]
  | @set_data v data length _ h4 hc ih =>
    cases hk : v.attr_type_ with
    | CHARS =>
      have e : Value.set_data v data length = Value.set_string v data length := by
        simp [Value.set_data, hk]
      rw [e]
      exact set_string_inv _ data length (hc hk)
    | UNDEFINED =>
      have e : Value.set_data v data length = v := by simp [Value.set_data, hk]
      rw [e]; exact ih
    | INTS =>
      have := h4 (Or.inl hk)
      simp [length_inv, Value.set_data, hk, this]
    | FLOATS =>
      have := h4 (Or.inr (Or.inl hk))
      simp [length_inv, Value.set_data, hk, this]
    | DATES =>
      have := h4 (Or.inr (Or.inr hk))
      simp [length_inv, Value.set_data, hk, this]
    | BOOLEANS => simp [length_inv, Value.set_data, hk]
  | @set_value v other w _ _ hsv _ iho =>
    cases hk : other.attr_type_ with
    | UNDEFINED => simp [Value.set_value, hk, ASSERT] at hsv
    | INTS =>
      simp only [Value.set_value, hk, Option.some.injEq] at hsv
      subst hsv
      simp [length_inv, Value.set_int, sizeof_int]
    | FLOATS =>
      simp only [Value.set_value, hk, Option.some.injEq] at hsv
      subst hsv
      simp [length_inv, Value.set_float, sizeof_int]
    | BOOLEANS =>
      simp only [Value.set_value, hk, Option.some.injEq] at hsv
      subst hsv
      simp [length_inv, Value.set_boolean]
    | DATES =>
      simp only [Value.set_value, hk, Option.some.injEq] at hsv
      subst hsv
      simp [length_inv, Value.set_date, sizeof_int]
    | CHARS =>
      simp only [Value.set_value, hk, Option.some.injEq] at hsv
      subst hsv
      apply set_string_inv
      right
      have e : get_string fl other = other.str_value_ := by simp [get_string, to_string, hk]
      rw [e]
      have := (iho.2 hk).1
      have := strlen_c_str_le other.str_value_
      omega

/-- Claim C10 (amended): for a Value reachable from a constructor by mutators,
where every `set_data` on an Int, Float or Date value is handed length 4, the
stored length is 4 when the kind is Int, Float or Date and the text length when
the kind is Text. -/
theorem length_invariant (fl : FloatOps) (v : Value) (h : Reachable fl v) :
    (v.attr_type_ = INTS ∨ v.attr_type_ = FLOATS ∨ v.attr_type_ = DATES → v.length_ = 4) ∧
      (v.attr_type_ = CHARS → v.length_ = (v.str_value_.length : Int)) :=
  ⟨(reachable_length_inv fl v h).1, fun hk => ((reachable_length_inv fl v h).2 hk).2⟩

/-- Witness of C10 on a run of three mutators. -/
theorem length_invariant_witness :
    Reachable F32.ops (set_string (set_date (of_int 0 5) 20230601) (bytes "abc") 0) ∧
      (set_string (set_date (of_int 0 5) 20230601) (bytes "abc") 0).length_ = 3 ∧
      (set_date (of_int 0 5) 20230601).length_ = 4 :=
  ⟨Reachable.set_string _ _ (Reachable.set_date _ (Reachable.set_int _ (Reachable.fresh 0)))
      (Or.inr (by decide)),
    ((length_invariant F32.ops _
      (Reachable.set_string (bytes "abc") 0
        (Reachable.set_date 20230601 (Reachable.set_int 5 (Reachable.fresh 0)))
        (Or.inr (by decide)))).2 rfl).trans (by decide),
    (length_invariant F32.ops _
      (Reachable.set_date 20230601 (Reachable.set_int 5 (Reachable.fresh 0)))).1
      (Or.inr (Or.inr rfl))⟩

/-- Counterexample to C10 as stated: `set_data` stores the length it is given,
and `set_boolean` stores `sizeof(bool)`. -/
theorem length_invariant_fails :
    (set_data (of_int 0 5) (cell_bytes 5) 7).attr_type_ = INTS ∧
      (set_data (of_int 0 5) (cell_bytes 5) 7).length_ = 7 ∧
      (of_bool 0 true).attr_type_ = BOOLEANS ∧ (of_bool 0 true).length_ = 1 := by
  decide

/-- Claim C9 at a failing input: `v` is a Bool `false` whose cell still holds
the second byte of the Int 256 it held before; `w.set_data(v.data(), v.length())`
on a fresh Bool `w` reads four bytes and makes `w` true. -/
theorem raw_round_trip_bool :
    (set_boolean (of_int 0 256) false).attr_type_ = BOOLEANS ∧
      get_boolean F32.ops (set_boolean (of_int 0 256) false) = false ∧
      get_int F32.ops (set_boolean (of_int 0 256) false) = 0 ∧
      get_boolean F32.ops
        (set_data (of_bool 0 false) (data (set_boolean (of_int 0 256) false))
          (length (set_boolean (of_int 0 256) false))) = true ∧
      get_int F32.ops
        (set_data (of_bool 0 false) (data (set_boolean (of_int 0 256) false))
          (length (set_boolean (of_int 0 256) false))) = 1 ∧
      compare F32.ops
        (set_data (of_bool 0 false) (data (set_boolean (of_int 0 256) false))
          (length (set_boolean (of_int 0 256) false)))
        (set_boolean (of_int 0 256) false) = -1 := by
  decide

/-- Reading back the four bytes of a cell gives the cell. -/
theorem load32_cell_bytes (c : Nat) (h : c < 4294967296) : load32 (cell_bytes c) = c := by
  simp only [load32, cell_bytes, List.getD_cons_zero, List.getD_cons_succ]
  omega

/-- Raw round trip for the kinds Int, Float and Date: `set_data` on a Value of
the same kind, fed `v.data()` and `v.length()`, reproduces the cell and the
length of `v`, hence `get_int`, and compares equal for Int and Date. -/
theorem raw_round_trip_scalar (fl : FloatOps) (v w : Value)
    (hk : v.attr_type_ = INTS ∨ v.attr_type_ = FLOATS ∨ v.attr_type_ = DATES)
    (hw : w.attr_type_ = v.attr_type_) (hc : v.num_value_ < 4294967296) :
    (set_data w (data v) (length v)).num_value_ = v.num_value_ ∧
      (set_data w (data v) (length v)).length_ = v.length_ ∧
      (set_data w (data v) (length v)).attr_type_ = v.attr_type_ ∧
      get_int fl (set_data w (data v) (length v)) = get_int fl v ∧
      (v.attr_type_ ≠ FLOATS → compare fl (set_data w (data v) (length v)) v = 0) := by
  rcases hk with hk | hk | hk <;>
    simp [set_data, data, length, hw, hk, load32_cell_bytes _ hc, get_int, compare,
      int_value_, float_value_, compare_int_self]

/-- Witness of the raw round trip on the Int `-5`. -/
theorem raw_round_trip_scalar_witness :
    (set_data (of_int 7 0) (data (of_int 0 (-5))) (length (of_int 0 (-5)))).num_value_
        = 4294967291 ∧
      get_int F32.ops (set_data (of_int 7 0) (data (of_int 0 (-5))) (length (of_int 0 (-5))))
        = -5 :=
  ⟨(raw_round_trip_scalar F32.ops (of_int 0 (-5)) (of_int 7 0) (Or.inl rfl) rfl
      (by decide)).1.trans (by decide),
   (raw_round_trip_scalar F32.ops (of_int 0 (-5)) (of_int 7 0) (Or.inl rfl) rfl
      (by decide)).2.2.2.1.trans (by decide)⟩

/-- Claim C11: `target.set_value(other)` aborts exactly when the kind of
`other` is Undefined, and returns a Value for every other kind. -/
theorem set_value_aborts_iff (fl : FloatOps) (target other : Value) :
    (set_value fl target other = none ↔ other.attr_type_ = UNDEFINED) ∧
      ((∃ w, set_value fl target other = some w) ↔ other.attr_type_ ≠ UNDEFINED) := by
  cases hk : other.attr_type_ <;> simp [set_value, hk, ASSERT]

/-- Witness of C11: an Undefined source aborts, an Int source does not. -/
theorem set_value_aborts_iff_witness :
    set_value F32.ops (of_int 0 5) (fresh 0) = none ∧
      set_value F32.ops (fresh 0) (of_int 0 5) = some (of_int 0 5) :=
  ⟨(set_value_aborts_iff F32.ops (of_int 0 5) (fresh 0)).1.2 rfl, by decide⟩

/-- The byte written by `set_boolean` is the byte read back. -/
theorem load_store_bool (c : Nat) (b : Bool) : load_bool (store_bool c b) = b := by
  unfold load_bool store_bool
  have h := Nat.mod_le c 256
  cases b
  · have e : (c - c % 256 + 0) % 256 = 0 := by omega
    simpa using e
  · have e : (c - c % 256 + 1) % 256 = 1 := by omega
    simp [e]

/-- The cell written by `set_int` with the integer of a cell reads as that integer. -/
theorem to_int32_round (c : Nat) : to_int32 (to_cell (to_int32 c)) = to_int32 c := by
  apply to_int32_to_cell
  · unfold to_int32; split_ifs <;> omega
  · unfold to_int32; split_ifs <;> omega

/-- A text without a zero byte is the C string at its `c_str()`. -/
theorem assign_cstr_c_str (s : List Nat) (h : ∀ b ∈ s, b ≠ 0) : assign_cstr (c_str s) = s := by
  unfold assign_cstr c_str
  rw [List.takeWhile_append_of_pos]
  · simp
  · intro a ha
    simpa using h a ha

/-- The text stored by `set_string` holds no zero byte. -/
theorem set_string_no_zero (v : Value) (s : List Nat) (len : Int) :
    ∀ b ∈ (set_string v s len).str_value_, b ≠ 0 := by
  intro b hb
  have hm : b ∈ s.takeWhile (fun b => b != 0) := by
    by_cases hl : 0 < len
    · have e : (set_string v s len).str_value_
          = (s.takeWhile (fun b => b != 0)).take len.toNat := by
        simp only [set_string, hl, if_true, assign_n]
        rw [takeWhile_eq_take_strlen, strnlen_eq_min, List.take_take]
      rw [e] at hb
      exact List.mem_of_mem_take hb
    · have e : (set_string v s len).str_value_ = s.takeWhile (fun b => b != 0) := by
        simp [set_string, hl, assign_cstr]
      rw [e] at hb
      exact hb
  simpa using List.mem_takeWhile_imp hm

/-- The text of a reachable Value holds no zero byte. -/
theorem reachable_no_zero (fl : FloatOps) (v : Value) (h : Reachable fl v) :
    ∀ b ∈ v.str_value_, b ≠ 0 := by
  induction h with
  | fresh junk => simp [fresh]
  | set_int val _ ih => exact ih
  | set_float val _ ih => exact ih
  | set_boolean val _ ih => exact ih
  | set_string s len _ _ _ => exact set_string_no_zero _ s len
  | set_date_ymd y m d _ ih => exact ih
  | set_date val _ ih => exact ih
  | @set_data v data length _ _ _ ih =>
    cases hk : v.attr_type_ <;> simp only [Value.set_data, hk] <;>
      first
      | exact ih
      | exact set_string_no_zero _ data length
  | @set_value v other w _ _ hsv ih _ =>
    cases hk : other.attr_type_ <;> simp only [Value.set_value, hk, ASSERT] at hsv <;>
      first
      | (simp at hsv; done)
      | (injection hsv with hsv; subst hsv; first | exact ih | exact set_string_no_zero _ _ _)

/-- Claim C12: for `other` of kind Int, Float, Bool, Date or Text (a text, as
every text stored by `set_string`, holds no zero byte) and every prior state of
`target`, `target.set_value(other)` yields a Value of the kind of `other` with
the same integer, float, boolean, packed date or text bytes. -/
theorem set_value_copies (fl : FloatOps) (target other : Value)
    (hk : other.attr_type_ ≠ UNDEFINED) (hz : ∀ b ∈ other.str_value_, b ≠ 0) :
    ∃ w, set_value fl target other = some w ∧ w.attr_type_ = other.attr_type_ ∧
      (other.attr_type_ = INTS ∨ other.attr_type_ = DATES → w.int_value_ = other.int_value_) ∧
      (other.attr_type_ = FLOATS → w.float_value_ = other.float_value_) ∧
      (other.attr_type_ = BOOLEANS → w.bool_value_ = other.bool_value_) ∧
      (other.attr_type_ = CHARS → w.str_value_ = other.str_value_) := by
  cases hv : other.attr_type_ with
  | UNDEFINED => exact absurd hv hk
  | INTS =>
    refine ⟨set_int target (get_int fl other), by simp [set_value, hv], rfl, ?_, ?_, ?_, ?_⟩ <;>
      simp [set_int, get_int, hv, int_value_, to_int32_round]
  | DATES =>
    refine ⟨set_date target (get_int fl other), by simp [set_value, hv], rfl, ?_, ?_, ?_, ?_⟩ <;>
      simp [set_date, get_int, hv, int_value_, to_int32_round]
  | FLOATS =>
    refine ⟨set_float target (get_float fl other), by simp [set_value, hv], rfl, ?_, ?_, ?_, ?_⟩ <;>
      simp [set_float, get_float, hv, float_value_]
  | BOOLEANS =>
    refine ⟨set_boolean target (get_boolean fl other), by simp [set_value, hv], rfl,
      ?_, ?_, ?_, ?_⟩ <;>
      simp [set_boolean, get_boolean, hv, bool_value_, load_store_bool]
  | CHARS =>
    refine ⟨set_string target (c_str (get_string fl other)) 0, by simp [set_value, hv], rfl,
      ?_, ?_, ?_, ?_⟩ <;>
      simp [set_string, get_string, to_string, hv, assign_cstr_c_str _ hz]

/-- Witness of C12: a Text copied over an Int, and a Bool copied over a Text. -/
theorem set_value_copies_witness :
    set_value F32.ops (of_int 0 5) (of_string 0 (bytes "abc") 0)
        = some (set_string (of_int 0 5) (bytes "abc" ++ [0]) 0) ∧
      (∃ w, set_value F32.ops (of_string 0 (bytes "abc") 0) (of_bool 0 true) = some w ∧
        w.attr_type_ = BOOLEANS ∧ w.bool_value_ = true) :=
  ⟨by decide,
   (set_value_copies F32.ops (of_string 0 (bytes "abc") 0) (of_bool 0 true) (by decide)
      (by decide)).imp (fun _ h => ⟨h.1, h.2.1, (h.2.2.2.2.1 rfl).trans (by decide)⟩)⟩

/-- Claim C14: `attr_type_to_string(DATES)` is the upper case text "DATES",
which `attr_type_from_string` maps to UNDEFINED and not to DATES; for every
other kind the two functions round-trip. -/
theorem attr_type_name_round_trip :
    attr_type_to_string DATES = bytes "DATES" ∧
      attr_type_from_string (attr_type_to_string DATES) = UNDEFINED ∧
      attr_type_from_string (attr_type_to_string DATES) ≠ DATES ∧
      ∀ k, k ≠ DATES → attr_type_from_string (attr_type_to_string k) = k := by
  refine ⟨by decide, by decide, by decide, ?_⟩
  intro k hk
  cases k <;> first | decide | exact absurd rfl hk

/-- Claim C16: `set_data` on a Value of kind Undefined leaves the whole Value
(kind, payload cell, text and stored length) as it was. -/
theorem set_data_undefined (v : Value) (data : List Nat) (length : Int)
    (hk : v.attr_type_ = UNDEFINED) :
    set_data v data length = v ∧
      (set_data v data length).attr_type_ = UNDEFINED ∧
      (set_data v data length).num_value_ = v.num_value_ ∧
      (set_data v data length).length_ = v.length_ := by
  have e : set_data v data length = v := by simp [set_data, hk]
  rw [e]
  exact ⟨rfl, hk, rfl, rfl⟩

/-- Witness of C16 on a default-constructed Value. -/
theorem set_data_undefined_witness :
    set_data (fresh 7) [1, 2, 3, 4] 4 = fresh 7 :=
  (set_data_undefined (fresh 7) [1, 2, 3, 4] 4 rfl).1

/-- A digit is neither white space nor a sign. -/
theorem isdigit_facts (d : Nat) (h : isdigit d = true) :
    isspace d = false ∧ d ≠ 45 ∧ d ≠ 43 := by
  simp only [isdigit, Bool.and_eq_true, decide_eq_true_eq] at h
  refine ⟨?_, by omega, by omega⟩
  simp only [isspace, Bool.or_eq_false_iff, Bool.and_eq_false_imp, beq_eq_false_iff_ne,
    decide_eq_true_eq, decide_eq_false_iff_not]
  omega

/-- No sign is taken from a text that starts with a digit. -/
theorem take_sign_digit (d : Nat) (r : List Nat) (h : isdigit d = true) :
    take_sign (d :: r) = (false, d :: r) := by
  have hf := isdigit_facts d h
  unfold take_sign
  split
  · rename_i heq
    injection heq with h1 _
    exact absurd h1 hf.2.1
  · rename_i heq
    injection heq with h1 _
    exact absurd h1 hf.2.2
  · rfl

/-- The digits read by `stol` from a run of digits followed by something else. -/
theorem takeWhile_digits (ds rest : List Nat) (hd : ∀ b ∈ ds, isdigit b = true)
    (hr : ∀ b, rest.head? = some b → isdigit b = false) :
    (ds ++ rest).takeWhile isdigit = ds := by
  rw [List.takeWhile_append_of_pos hd]
  cases rest with
  | nil => simp
  | cons b r =>
    have := hr b rfl
    simp [List.takeWhile_cons, this]

/-- What `std::stol` reads from white space, an optional sign, a run of digits
and a rest that does not start with a digit. -/
theorem stol_parse (ws sg ds rest : List Nat) (hws : ∀ b ∈ ws, isspace b = true)
    (hsg : sg = [] ∨ sg = [43] ∨ sg = [45]) (hne : ds ≠ [])
    (hd : ∀ b ∈ ds, isdigit b = true) (hr : ∀ b, rest.head? = some b → isdigit b = false) :
    stol (ws ++ sg ++ ds ++ rest)
      = (if signed_value sg ds < -9223372036854775808 ∨ 9223372036854775807 < signed_value sg ds
          then none else some (signed_value sg ds)) := by
  unfold signed_value
  obtain ⟨d, ds1, rfl⟩ : ∃ d ds1, ds = d :: ds1 := by
    cases ds with
    | nil => exact absurd rfl hne
    | cons d ds1 => exact ⟨d, ds1, rfl⟩
  have hdd : isdigit d = true := hd d (by simp)
  have hf := isdigit_facts d hdd
  have htw := takeWhile_digits (d :: ds1) rest hd hr
  have e0 : ws ++ sg ++ (d :: ds1) ++ rest = ws ++ (sg ++ ((d :: ds1) ++ rest)) := by
    simp [List.append_assoc]
  unfold stol
  rw [e0, List.dropWhile_append_of_pos hws]
  rcases hsg with rfl | rfl | rfl
  · have e1 : ([] ++ ((d :: ds1) ++ rest)).dropWhile isspace = d :: (ds1 ++ rest) := by
      simp [List.dropWhile_cons, hf.1]
    have e2 : d :: (ds1 ++ rest) = (d :: ds1) ++ rest := rfl
    rw [e1, take_sign_digit d _ hdd]
    simp only [e2, htw]
    simp
  · have e1 : ([43] ++ ((d :: ds1) ++ rest)).dropWhile isspace = 43 :: ((d :: ds1) ++ rest) := by
      simp [List.dropWhile_cons, isspace]
    rw [e1]
    simp only [take_sign, htw]
    simp
  · have e1 : ([45] ++ ((d :: ds1) ++ rest)).dropWhile isspace = 45 :: ((d :: ds1) ++ rest) := by
      simp [List.dropWhile_cons, isspace]
    rw [e1]
    simp only [take_sign, htw]
    simp

/-- The conversion to `int` yields the 32-bit signed integer congruent to its
argument modulo `2 ^ 32`. -/
theorem int_cast_spec (n : Int) :
    -2147483648 ≤ int_cast n ∧ int_cast n < 2147483648 ∧
      (int_cast n - n) % 4294967296 = 0 ∧ (int_cast n = 0 ↔ n % 4294967296 = 0) := by
  unfold int_cast to_int32 to_cell
  have h1 : 0 ≤ n % 4294967296 := Int.emod_nonneg _ (by decide)
  have h2 : n % 4294967296 < 4294967296 := Int.emod_lt_of_pos _ (by decide)
  have h3 : (((n % 4294967296).toNat % 4294967296 : Nat) : Int) = n % 4294967296 := by omega
  have h4 : (n % 4294967296).toNat % 4294967296 < 2147483648 ↔ n % 4294967296 < 2147483648 := by
    omega
  split_ifs with h
  · rw [h3]
    refine ⟨by omega, by omega, by omega, Iff.rfl⟩
  · rw [h3]
    refine ⟨by omega, by omega, by omega, by omega⟩

/-- Claim C20 (amended): for a Text value whose content is an optional sign and
decimal digits writing the integer `n`: when `n` fits 64 bits, `get_int` returns
`n` reduced modulo `2 ^ 32` and read as a signed 32-bit integer; when it does not,
`get_int` returns 0. So the result is 0 exactly when `n` does not fit 64 bits or
is a multiple of `2 ^ 32`. -/
theorem get_int_wraps (fl : FloatOps) (v : Value) (sg ds : List Nat)
    (hk : v.attr_type_ = CHARS) (hs : v.str_value_ = sg ++ ds)
    (hsg : sg = [] ∨ sg = [43] ∨ sg = [45]) (hne : ds ≠ [])
    (hd : ∀ b ∈ ds, isdigit b = true) :
    (-9223372036854775808 ≤ signed_value sg ds → signed_value sg ds < 9223372036854775808 →
      get_int fl v = int_cast (signed_value sg ds) ∧
      -2147483648 ≤ get_int fl v ∧ get_int fl v < 2147483648 ∧
      (get_int fl v - signed_value sg ds) % 4294967296 = 0) ∧
    (signed_value sg ds < -9223372036854775808 ∨ 9223372036854775808 ≤ signed_value sg ds →
      get_int fl v = 0) ∧
    (get_int fl v = 0 ↔
      (signed_value sg ds < -9223372036854775808 ∨ 9223372036854775808 ≤ signed_value sg ds ∨
        signed_value sg ds % 4294967296 = 0)) := by
  have hp := stol_parse [] sg ds [] (by simp) hsg hne hd (by simp)
  simp only [List.nil_append, List.append_nil] at hp
  have hspec := int_cast_spec (signed_value sg ds)
  by_cases hc : signed_value sg ds < -9223372036854775808 ∨
      9223372036854775807 < signed_value sg ds
  · rw [if_pos hc] at hp
    have e : get_int fl v = 0 := by simp only [get_int, hk, hs, hp]
    refine ⟨fun h1 h2 => by omega, fun _ => e, ?_⟩
    rw [e]
    constructor
    · intro _
      omega
    · intro _
      rfl
  · rw [if_neg hc] at hp
    have e : get_int fl v = int_cast (signed_value sg ds) := by simp only [get_int, hk, hs, hp]
    refine ⟨fun _ _ => ?_, fun h => by omega, ?_⟩
    · rw [e]
      exact ⟨rfl, hspec.1, hspec.2.1, hspec.2.2.1⟩
    · rw [e, hspec.2.2.2]
      constructor
      · intro h
        exact Or.inr (Or.inr h)
      · intro h
        rcases h with h | h | h
        · omega
        · omega
        · exact h

/-- Witness of C20: the two examples of the claim, and a number beyond 64 bits. -/
theorem get_int_wraps_witness :
    get_int F32.ops (of_string 0 (bytes "4294967297") 0) = 1 ∧
      get_int F32.ops (of_string 0 (bytes "2147483648") 0) = -2147483648 ∧
      get_int F32.ops (of_string 0 (bytes "9223372036854775808") 0) = 0 :=
  ⟨((get_int_wraps F32.ops (of_string 0 (bytes "4294967297") 0) [] (bytes "4294967297") rfl
      (by decide) (by decide) (by decide) (by decide)).1 (by decide) (by decide)).1.trans
      (by decide),
   by decide,
   (get_int_wraps F32.ops (of_string 0 (bytes "9223372036854775808") 0) []
      (bytes "9223372036854775808") rfl (by decide) (by decide) (by decide) (by decide)).2.1
      (Or.inr (by decide))⟩

/-- Counterexample to C20 as stated: the text "4294967296" writes a number that
fits 64 bits, and `get_int` returns 0 for it. -/
theorem get_int_wraps_to_zero :
    get_int F32.ops (of_string 0 (bytes "4294967296") 0) = 0 ∧
      signed_value [] (bytes "4294967296") = 4294967296 ∧
      (-9223372036854775808 : Int) ≤ 4294967296 ∧ (4294967296 : Int) < 9223372036854775808 := by
  decide

/-- The loop of `attr_type_from_string`, unrolled over the six names of the table. -/
theorem attr_type_from_string_eq (s : List Nat) :
    attr_type_from_string s =
      if assign_cstr s = bytes "undefined" then UNDEFINED
      else if assign_cstr s = bytes "chars" then CHARS
      else if assign_cstr s = bytes "ints" then INTS
      else if assign_cstr s = bytes "floats" then FLOATS
      else if assign_cstr s = bytes "booleans" then BOOLEANS
      else if assign_cstr s = bytes "dates" then DATES
      else UNDEFINED := by
  have e0 : assign_cstr (bytes "undefined") = bytes "undefined" := by decide
  have e1 : assign_cstr (bytes "chars") = bytes "chars" := by decide
  have e2 : assign_cstr (bytes "ints") = bytes "ints" := by decide
  have e3 : assign_cstr (bytes "floats") = bytes "floats" := by decide
  have e4 : assign_cstr (bytes "booleans") = bytes "booleans" := by decide
  have e5 : assign_cstr (bytes "dates") = bytes "dates" := by decide
  simp only [attr_type_from_string, ATTR_TYPE_NAME, find_name, strcmp, lex_compare_eq_zero,
    e0, e1, e2, e3, e4, e5, @eq_comm _ (bytes _) (assign_cstr s)]
  split_ifs <;> rfl

/-- The result of `attr_type_from_string` kind by kind: a kind other than
UNDEFINED is returned for its own table name only, UNDEFINED for "undefined"
and for every text that is none of the six table names. -/
theorem attr_type_from_string_cases (s : List Nat) (k : AttrType) :
    (k ≠ UNDEFINED →
      (attr_type_from_string s = k ↔ assign_cstr s = ATTR_TYPE_NAME.getD k.index [])) ∧
    (attr_type_from_string s = UNDEFINED ↔
      (assign_cstr s = bytes "undefined" ∨ assign_cstr s ∉ ATTR_TYPE_NAME)) := by
  have d01 : bytes "undefined" ≠ bytes "chars" := by decide
  have d02 : bytes "undefined" ≠ bytes "ints" := by decide
  have d03 : bytes "undefined" ≠ bytes "floats" := by decide
  have d04 : bytes "undefined" ≠ bytes "booleans" := by decide
  have d05 : bytes "undefined" ≠ bytes "dates" := by decide
  have d12 : bytes "chars" ≠ bytes "ints" := by decide
  have d13 : bytes "chars" ≠ bytes "floats" := by decide
  have d14 : bytes "chars" ≠ bytes "booleans" := by decide
  have d15 : bytes "chars" ≠ bytes "dates" := by decide
  have d23 : bytes "ints" ≠ bytes "floats" := by decide
  have d24 : bytes "ints" ≠ bytes "booleans" := by decide
  have d25 : bytes "ints" ≠ bytes "dates" := by decide
  have d34 : bytes "floats" ≠ bytes "booleans" := by decide
  have d35 : bytes "floats" ≠ bytes "dates" := by decide
  have d45 : bytes "booleans" ≠ bytes "dates" := by decide
  have s01 := d01.symm
  have s02 := d02.symm
  have s03 := d03.symm
  have s04 := d04.symm
  have s05 := d05.symm
  have s12 := d12.symm
  have s13 := d13.symm
  have s14 := d14.symm
  have s15 := d15.symm
  have s23 := d23.symm
  have s24 := d24.symm
  have s25 := d25.symm
  have s34 := d34.symm
  have s35 := d35.symm
  have s45 := d45.symm
  rw [attr_type_from_string_eq]
  simp only [ATTR_TYPE_NAME, List.mem_cons, List.mem_singleton, List.not_mem_nil, or_false]
  generalize bytes "undefined" = n0 at *
  generalize bytes "chars" = n1 at *
  generalize bytes "ints" = n2 at *
  generalize bytes "floats" = n3 at *
  generalize bytes "booleans" = n4 at *
  generalize bytes "dates" = n5 at *
  generalize assign_cstr s = x
  by_cases h0 : x = n0
  · cases k <;> simp [AttrType.index, h0, d01, d02, d03, d04, d05]
  by_cases h1 : x = n1
  · cases k <;> simp [AttrType.index, h1, s01, d12, d13, d14, d15]
  by_cases h2 : x = n2
  · cases k <;> simp [AttrType.index, h2, s02, s12, d23, d24, d25]
  by_cases h3 : x = n3
  · cases k <;> simp [AttrType.index, h3, s03, s13, s23, d34, d35]
  by_cases h4 : x = n4
  · cases k <;> simp [AttrType.index, h4, s04, s14, s24, s34, d45]
  by_cases h5 : x = n5
  · cases k <;> simp [AttrType.index, h5, s05, s15, s25, s35, s45]
  cases k <;> simp [AttrType.index, h0, h1, h2, h3, h4, h5]

/-- Claim C15: for a C string `s` that is one of the six lower case table names,
`attr_type_from_string(s)` is the kind `k` exactly when `s` is the table name of
`k`, case-sensitively; for a string that is none of the six names it is
UNDEFINED. Hence a kind other than UNDEFINED is returned for its own name only. -/
theorem attr_type_from_string_spec (s : List Nat) (k : AttrType) :
    (assign_cstr s ∈ ATTR_TYPE_NAME →
      (attr_type_from_string s = k ↔ assign_cstr s = ATTR_TYPE_NAME.getD k.index [])) ∧
    (assign_cstr s ∉ ATTR_TYPE_NAME → attr_type_from_string s = UNDEFINED) ∧
    (k ≠ UNDEFINED →
      (attr_type_from_string s = k ↔ assign_cstr s = ATTR_TYPE_NAME.getD k.index [])) ∧
    (attr_type_from_string s = UNDEFINED ↔
      (assign_cstr s = bytes "undefined" ∨ assign_cstr s ∉ ATTR_TYPE_NAME)) := by
  have hc := attr_type_from_string_cases s k
  have hu := (attr_type_from_string_cases s UNDEFINED).2
  refine ⟨?_, fun hn => hu.2 (Or.inr hn), hc.1, hu⟩
  intro hm
  by_cases hk : k = UNDEFINED
  · subst hk
    rw [hu]
    constructor
    · intro h
      rcases h with h | h
      · exact h
      · exact absurd hm h
    · intro h
      exact Or.inl h
  · exact hc.1 hk

/-- Witness of C15 on the names "dates", "Dates", "undefined" and "xyz". -/
theorem attr_type_from_string_spec_witness :
    attr_type_from_string (bytes "dates") = DATES ∧
      attr_type_from_string (bytes "Dates") = UNDEFINED ∧
      attr_type_from_string (bytes "undefined") = UNDEFINED ∧
      attr_type_from_string (bytes "xyz") = UNDEFINED :=
  ⟨((attr_type_from_string_spec (bytes "dates") DATES).1 (by decide)).2 (by decide),
   (attr_type_from_string_spec (bytes "Dates") DATES).2.1 (by decide),
   ((attr_type_from_string_spec (bytes "undefined") UNDEFINED).1 (by decide)).2 (by decide),
   (attr_type_from_string_spec (bytes "xyz") UNDEFINED).2.1 (by decide)⟩

/-- Claim C17 at failing inputs: two Bool values set to `false`, one on a Value
that held the Int 256, compare as different; a Bool `true` compares below a Bool
`false` set on a Value that held the Int 512. -/
theorem compare_bool_stale :
    get_boolean F32.ops (set_boolean (of_int 0 256) false) = false ∧
      get_boolean F32.ops (set_boolean (of_int 0 0) false) = false ∧
      compare F32.ops (set_boolean (of_int 0 256) false) (set_boolean (of_int 0 0) false) = 1 ∧
      compare F32.ops (set_boolean (fresh 0) true) (set_boolean (of_int 0 512) false) = -1 := by
  decide

/-- Two Bool values set on Values whose cells agree beyond the first byte
compare as the integers 0 and 1 of their booleans. -/
theorem compare_bool_clean (fl : FloatOps) (p q : Value) (a b : Bool)
    (h : p.num_value_ / 256 = q.num_value_ / 256) :
    compare fl (set_boolean p a) (set_boolean q b)
      = compare_int (if a then 1 else 0) (if b then 1 else 0) := by
  have e : compare fl (set_boolean p a) (set_boolean q b)
      = compare_int (to_int32 (store_bool p.num_value_ a)) (to_int32 (store_bool q.num_value_ b)) := by
    simp [compare, set_boolean, int_value_]
  rw [e]
  have hp := Nat.mod_le p.num_value_ 256
  have hq := Nat.mod_le q.num_value_ 256
  unfold compare_int to_int32 store_bool
  cases a <;> cases b <;> simp only [if_true, if_false, Bool.false_eq_true] <;>
    split_ifs <;> omega

/-- Witness of the comparison of two Bool values set on default-constructed
Values with equal cells. -/
theorem compare_bool_clean_witness :
    compare F32.ops (of_bool 0 false) (of_bool 0 true) = -1 ∧
      compare F32.ops (of_bool 0 true) (of_bool 0 true) = 0 :=
  ⟨(compare_bool_clean F32.ops (fresh 0) (fresh 0) false true rfl).trans (by decide),
   (compare_bool_clean F32.ops (fresh 0) (fresh 0) true true rfl).trans (by decide)⟩

/-- The digits written by `dec_digits` are the decimal digits of the number,
most significant first, as ASCII codes. -/
theorem dec_digits_spec (fuel m : Nat) (h0 : 0 < m) (h : m < 10 ^ fuel) :
    dec_digits fuel m = (Nat.digits 10 m).reverse.map (fun d => 48 + d) := by
  induction fuel generalizing m with
  | zero =>
    simp at h
    omega
  | succ fuel ih =>
    unfold dec_digits
    by_cases h10 : m < 10
    · rw [if_pos h10, Nat.digits_of_lt 10 m (by omega) h10]
      rfl
    · have hd : m / 10 < 10 ^ fuel := by
        apply Nat.div_lt_of_lt_mul
        rw [pow_succ] at h
        omega
      rw [if_neg h10, Nat.digits_def' (by decide) h0, ih (m / 10) (by omega) hd]
      simp

/-- Claim C18: for a 32-bit signed integer `n`, an Int value set to `n` renders
as the decimal digits of `n` without padding, after a minus sign when `n` is
negative; a Bool value renders as "1" when true and "0" when false. -/
theorem to_string_int_bool (fl : FloatOps) (v : Value) (n : Int) (b : Bool)
    (h1 : -2147483648 ≤ n) (h2 : n < 2147483648) :
    to_string fl (set_int v n)
        = (if n < 0 then [45] else [])
          ++ (if n = 0 then [48] else (Nat.digits 10 n.natAbs).reverse.map (fun d => 48 + d)) ∧
      to_string fl (set_boolean v b) = (if b then bytes "1" else bytes "0") := by
  constructor
  · have e : to_string fl (set_int v n) = printf_d 0 n := by
      simp [to_string, set_int, int_value_, to_int32_to_cell n h1 h2]
    rw [e]
    unfold printf_d
    by_cases hz : n = 0
    · subst hz
      decide
    · have hpos : 0 < n.natAbs := Int.natAbs_pos.mpr hz
      have hlt : n.natAbs < 10 ^ 10 := by omega
      rw [dec_digits_spec 10 n.natAbs hpos hlt]
      by_cases hneg : n < 0
      · simp [hneg, hz]
      · simp [hneg, hz]
  · have e : to_string fl (set_boolean v b) = if b then [49] else [48] := by
      simp [to_string, set_boolean, bool_value_, load_store_bool]
    rw [e]
    cases b <;> decide

/-- Witness of C18: `Value(5)`, `Value(-120)` and `Value(true)`. -/
theorem to_string_int_bool_witness :
    to_string F32.ops (of_int 0 5) = bytes "5" ∧
      to_string F32.ops (of_int 0 (-120)) = bytes "-120" ∧
      to_string F32.ops (of_bool 0 true) = bytes "1" :=
  ⟨(to_string_int_bool F32.ops (fresh 0) 5 true (by decide) (by decide)).1.trans
      (by norm_num [bytes]; decide),
   (to_string_int_bool F32.ops (fresh 0) (-120) true (by decide) (by decide)).1.trans
      (by norm_num [bytes]; decide),
   (to_string_int_bool F32.ops (fresh 0) 5 true (by decide) (by decide)).2⟩

/-- Claim C19: for a Text value, `get_boolean` is true exactly when the text is
not empty, whatever `std::stof` and `std::stol` make of it; `std::stof` throws
on the empty text. -/
theorem get_boolean_text (fl : FloatOps) (t : Value) (hk : t.attr_type_ = CHARS)
    (hstof : fl.stof [] = none) :
    get_boolean fl t = !t.str_value_.isEmpty ∧
      (get_boolean fl t = true ↔ t.str_value_ ≠ []) := by
  have key : get_boolean fl t = !t.str_value_.isEmpty := by
    cases hs : t.str_value_ with
    | nil => simp [get_boolean, hk, hs, hstof]
    | cons c r =>
      simp only [get_boolean, hk, hs]
      cases fl.stof (c :: r) with
      | none => rfl
      | some val =>
        simp only
        split_ifs
        · rfl
        · cases stol (c :: r) with
          | none => rfl
          | some n =>
            simp only
            split_ifs <;> rfl
  refine ⟨key, ?_⟩
  rw [key]
  cases t.str_value_ <;> simp

/-- Witness of C19: the three examples of the claim. -/
theorem get_boolean_text_witness :
    get_boolean F32.ops (of_string 0 (bytes "0") 0) = true ∧
      get_boolean F32.ops (of_string 0 (bytes "0.0") 0) = true ∧
      get_boolean F32.ops (of_string 0 (bytes "") 0) = false :=
  ⟨(get_boolean_text F32.ops (of_string 0 (bytes "0") 0) rfl (by decide)).1.trans (by decide),
   (get_boolean_text F32.ops (of_string 0 (bytes "0.0") 0) rfl (by decide)).1.trans (by decide),
   (get_boolean_text F32.ops (of_string 0 (bytes "") 0) rfl (by decide)).1.trans (by decide)⟩

end Value
end Miniob
